import Mathlib

set_option linter.unusedSectionVars false
set_option linter.unusedVariables false

/-!
Verification development for the DroneMonitoringWeb repository.

The server's core engine lives in `src/Server/Services/DroneSimulatorService.cs`
(final revision: the second revision contained in that file, the one declaring
`MIN_ACTIVE_DRONES`/`MAX_ACTIVE_DRONES` and per-drone routes), with the
real-time hub in `src/Server/Hubs/DroneTrackingHub.cs` and seeding/geometry in
`src/Server/Program.cs`.  `src/unnamed/part_007` is an earlier revision of the
simulator service whose `SimulateDroneMovement` recomputes the target vector
after a waypoint advance; it is embedded separately where a claim cites it.

The C# code computes with `double` and the .NET `Math`/NetTopologySuite
primitives.  We embed the numerics over an arbitrary `LinearOrderedField α`
together with a record `RealOps α` of the primitive transcendental operations
the code calls (`Math.Sqrt`, `Math.Sin`, `Math.Cos`, `Math.Atan2`, `Math.PI`,
and the C# floating `%` operator).  Theorems about geometry instantiate
`α := ℝ` with the genuine real operations; structural theorems hold for every
instantiation, and witnesses evaluate at `α := ℚ`.
-/

namespace DroneMonitoring

/-- The primitive numeric operations the C# simulator calls, abstracted so the
embedding stays executable: `Math.Sqrt`, `Math.Sin`, `Math.Cos`,
`Math.Atan2(y, x)`, `Math.PI` and the C# `%` on doubles. -/
structure RealOps (α : Type) where
  sqrt : α → α
  sin : α → α
  cos : α → α
  atan2 : α → α → α
  pi : α
  fmod : α → α → α

/-- `Math.Atan2` on the reals (quadrant-correcting arctangent); `Atan2 0 0 = 0`
as in .NET. -/
noncomputable def ratan2 (y x : ℝ) : ℝ :=
  if 0 < x then Real.arctan (y / x)
  else if x < 0 then
    (if 0 ≤ y then Real.arctan (y / x) + Real.pi else Real.arctan (y / x) - Real.pi)
  else (if 0 < y then Real.pi / 2 else if y < 0 then -(Real.pi / 2) else 0)

/-- The C# `%` operator on doubles: `a % b = a - b * truncate (a / b)`. -/
noncomputable def rfmod (a b : ℝ) : ℝ := a - b * (Int.floor (a / b) : ℝ)

/-- The real-number instantiation of the primitive operations. -/
noncomputable def realOps : RealOps ℝ :=
  { sqrt := Real.sqrt, sin := Real.sin, cos := Real.cos
    atan2 := ratan2, pi := Real.pi, fmod := rfmod }

/-- A rational instantiation used only to evaluate structural witnesses
(claims whose truth does not depend on the transcendental primitives). -/
def ratOps : RealOps ℚ :=
  { sqrt := fun _ => 0, sin := fun _ => 0, cos := fun _ => 0
    atan2 := fun _ _ => 0, pi := 0, fmod := fun _ _ => 0 }

/-- Live status of a drone; the source stores the strings `"Active"` /
`"Inactive"` and only ever assigns these two values. -/
inductive DroneStatus where
  | Active
  | Inactive
deriving DecidableEq, Repr

/-- `DroneSimulatorService.DroneState` (final revision, lines 277–287 of the
concatenated service file): ephemeral per-drone simulation state. -/
structure DroneState (α : Type) where
  latitude : α
  longitude : α
  altitude : α
  speed : α
  heading : α
  status : DroneStatus
  route : List (α × α)
  currentWaypointIndex : ℕ
deriving DecidableEq

/-- `MIN_ACTIVE_DRONES = 5` (source line 264). -/
def MIN_ACTIVE_DRONES : ℕ := 5

/-- `MAX_ACTIVE_DRONES = 10` (source line 265). -/
def MAX_ACTIVE_DRONES : ℕ := 10

section Simulator

variable {α : Type} [LinearOrderedField α]

/-- `53.9006`, the simulation center latitude used by the service. -/
def simCenterLat : α := 539006 / 10000

/-- `27.5615`, the simulation center longitude used by the service. -/
def simCenterLon : α := 275615 / 10000

/-- The random draws consumed by one call of `GenerateRoute` (final revision,
lines 371–460).  Each field models one `_random.NextDouble()` (a value in
`[0,1)`), `_random.Next(a,b)` (an integer in `[a,b)`) or `_random.Next(2)==0`
coin in the order the source draws them; only the fields of the selected
`routeType` case are consumed. -/
structure RouteDraws (α : Type) where
  centerJLat : α
  centerJLon : α
  rectW : α
  rectH : α
  scatterN : ℕ
  scatterAngle : ℕ → α
  scatterDist : ℕ → α
  circRadius : α
  circClockwise : Bool
  eightRadius : α
  zigW : α
  zigH : α
  zigN : ℕ
  walkN : ℕ
  walkLat : ℕ → α
  walkLon : ℕ → α

/-- The random-walk loop of `GenerateRoute` case 5: starting from `cur`,
append `n` successive displaced points, reading step `k`, `k+1`, … -/
def walkRoute (f : ℕ → α × α) : ℕ → ℕ → α × α → List (α × α)
  | _, 0, cur => [cur]
  | k, n + 1, cur => cur :: walkRoute f (k + 1) n (cur.1 + (f k).1, cur.2 + (f k).2)

/-- `GenerateRoute(centerLat, centerLon)` (final revision, lines 371–460).
`routeType = _random.Next(0, 6)`; a value outside `0..5` falls through the
switch and returns the empty list, exactly as in the source. -/
def generateRoute (ops : RealOps α) (centerLat centerLon : α) (routeType : ℕ)
    (d : RouteDraws α) : List (α × α) :=
  let rcLat := centerLat + (d.centerJLat - 1 / 2) * (5 / 100)
  let rcLon := centerLon + (d.centerJLon - 1 / 2) * (5 / 100)
  match routeType with
  | 0 =>
    -- patrol rectangle
    let w := 1 / 100 + d.rectW * (2 / 100)
    let h := 1 / 100 + d.rectH * (2 / 100)
    [(rcLat - h / 2, rcLon - w / 2), (rcLat + h / 2, rcLon - w / 2),
     (rcLat + h / 2, rcLon + w / 2), (rcLat - h / 2, rcLon + w / 2)]
  | 1 =>
    -- random points scattered around the center; `points = Next(5, 9)`
    (List.range d.scatterN).map fun i =>
      let angle := d.scatterAngle i * 2 * ops.pi
      let dist := 1 / 100 + d.scatterDist i * (3 / 100)
      (rcLat + ops.sin angle * dist, rcLon + ops.cos angle * dist)
  | 2 =>
    -- circular loop, clockwise or counter-clockwise, 12 points
    let radius := 15 / 1000 + d.circRadius * (2 / 100)
    (List.range 12).map fun i =>
      let step : ℕ := if d.circClockwise then i else 12 - 1 - i
      let angle := ((step : α) * 360 / 12) * ops.pi / 180
      (rcLat + ops.sin angle * radius, rcLon + ops.cos angle * radius)
  | 3 =>
    -- figure-eight: two lobes of 9 points each (loops run `i = 0 .. 8`)
    let radius := 1 / 100 + d.eightRadius * (1 / 100)
    ((List.range 9).map fun (i : ℕ) =>
      let angle := ((i : α) * 360 / 8) * ops.pi / 180
      (rcLat + ops.sin angle * radius, rcLon - radius + ops.cos angle * radius)) ++
    ((List.range 9).map fun (i : ℕ) =>
      let angle := ((i : α) * 360 / 8) * ops.pi / 180
      (rcLat - ops.sin angle * radius, rcLon + radius - ops.cos angle * radius))
  | 4 =>
    -- zigzag area sweep; `zigs = Next(3, 5)`, loop runs `i = 0 .. zigs`
    let w := 3 / 100 + d.zigW * (2 / 100)
    let h := 3 / 100 + d.zigH * (2 / 100)
    ((List.range (d.zigN + 1)).map fun (i : ℕ) =>
      [(rcLat - h / 2 + ((i : α) * h / (d.zigN : α)), rcLon - w / 2),
       (rcLat - h / 2 + ((i : α) * h / (d.zigN : α)), rcLon + w / 2)]).flatten
  | 5 =>
    -- unconstrained random walk; `points = Next(8, 15)` extra points
    walkRoute (fun k => ((d.walkLat k - 1 / 2) * (15 / 1000),
                         (d.walkLon k - 1 / 2) * (15 / 1000))) 0 d.walkN (rcLat, rcLon)
  | _ => []

/-- `ActivateDrone` (final revision, lines 358–369), with the freshly
generated route passed in: set status Active, install the route, reset the
waypoint index, and snap the position to the first waypoint when the route is
non-empty. -/
def activateDrone (s : DroneState α) (route : List (α × α)) : DroneState α :=
  let s1 : DroneState α :=
    { s with status := DroneStatus.Active, route := route, currentWaypointIndex := 0 }
  match route with
  | [] => s1
  | p :: _ => { s1 with latitude := p.1, longitude := p.2 }

/-- The random draws consumed by one call of `SimulateDroneMovement` for one
drone: the `NextDouble()` for the move speed, altitude and speed jitter, and
the Boolean outcome of `_random.Next(DEACTIVATION_CHANCE_INVERSE) == 0`
(in the part_007 revision the same field models `_random.Next(1000) == 0`). -/
structure MoveDraws (α : Type) where
  speedJitter : α
  altJitter : α
  velJitter : α
  deactivate : Bool

/-- `SimulateDroneMovement` (final revision, lines 547–579).  `activeCount` is
the value of `_droneStates.Values.Count(s => s.Status == "Active")` at the
moment of the deactivation check (statuses are unchanged by the movement
portion, so it equals the live count when the method is entered).  Note that
after a waypoint advance the movement still uses the vector computed against
the old target: the source does not recompute `deltaLat`/`deltaLon`. -/
def simulateDroneMovement (ops : RealOps α) (activeCount : ℕ) (d : MoveDraws α)
    (s : DroneState α) : DroneState α :=
  match s.route with
  | [] => s
  | _ :: _ =>
    let target := s.route.getD s.currentWaypointIndex (0, 0)
    let deltaLat := target.1 - s.latitude
    let deltaLon := target.2 - s.longitude
    let distance := ops.sqrt (deltaLat * deltaLat + deltaLon * deltaLon)
    let idx := if distance < 5 / 10000 then
        (s.currentWaypointIndex + 1) % s.route.length
      else s.currentWaypointIndex
    let moveSpeed := 1 / 10000 + d.speedJitter * (5 / 100000)
    let lat := if 0 < distance then s.latitude + deltaLat / distance * moveSpeed else s.latitude
    let lon := if 0 < distance then s.longitude + deltaLon / distance * moveSpeed else s.longitude
    let hdg := if 0 < distance then
        ops.fmod (ops.atan2 deltaLon deltaLat * 180 / ops.pi + 360) 360
      else s.heading
    let alt := max 50 (min 500 (s.altitude + d.altJitter * 10 - 5))
    let spd := max 8 (min 25 (s.speed + d.velJitter * 3 - 3 / 2))
    let st := if MIN_ACTIVE_DRONES < activeCount ∧ d.deactivate then
        DroneStatus.Inactive
      else s.status
    { s with latitude := lat, longitude := lon, heading := hdg,
             altitude := alt, speed := spd, currentWaypointIndex := idx, status := st }

/-- `SimulateDroneMovement` of the earlier revision `src/unnamed/part_007`
(lines 220–257): identical shape except that after a waypoint advance the
target, delta vector and distance are recomputed against the new waypoint,
the heading normalisation is written with a conditional `+ 360`, and the
status draw (`Next(1000) == 0`) toggles the status instead of deactivating. -/
def simulateDroneMovementP7 (ops : RealOps α) (d : MoveDraws α)
    (s : DroneState α) : DroneState α :=
  match s.route with
  | [] => s
  | _ :: _ =>
    let target0 := s.route.getD s.currentWaypointIndex (0, 0)
    let dLat0 := target0.1 - s.latitude
    let dLon0 := target0.2 - s.longitude
    let dist0 := ops.sqrt (dLat0 * dLat0 + dLon0 * dLon0)
    let idx := if dist0 < 5 / 10000 then
        (s.currentWaypointIndex + 1) % s.route.length
      else s.currentWaypointIndex
    let target := s.route.getD idx (0, 0)
    let deltaLat := target.1 - s.latitude
    let deltaLon := target.2 - s.longitude
    let distance := if dist0 < 5 / 10000 then
        ops.sqrt (deltaLat * deltaLat + deltaLon * deltaLon)
      else dist0
    let moveSpeed := 1 / 10000 + d.speedJitter * (5 / 100000)
    let lat := if 0 < distance then s.latitude + deltaLat / distance * moveSpeed else s.latitude
    let lon := if 0 < distance then s.longitude + deltaLon / distance * moveSpeed else s.longitude
    let hdgRaw := ops.atan2 deltaLon deltaLat * 180 / ops.pi
    let hdg := if 0 < distance then (if hdgRaw < 0 then hdgRaw + 360 else hdgRaw) else s.heading
    let alt := max 50 (min 500 (s.altitude + d.altJitter * 10 - 5))
    let spd := max 8 (min 25 (s.speed + d.velJitter * 3 - 3 / 2))
    let st := if d.deactivate then
        (if s.status = DroneStatus.Active then DroneStatus.Inactive else DroneStatus.Active)
      else s.status
    { s with latitude := lat, longitude := lon, heading := hdg,
             altitude := alt, speed := spd, currentWaypointIndex := idx, status := st }

/-- `_droneStates.Values.Count(s => s.Status == "Active")`. -/
def countActive (tbl : List (ℕ × DroneState α)) : ℕ :=
  tbl.countP fun e => decide (e.2.status = DroneStatus.Active)

/-- The `FirstOrDefault` activation inside `ManageActiveDrones`: activate the
first Inactive drone of the table, if any, leaving the rest untouched. -/
def activateFirstInactive (route : List (α × α)) :
    List (ℕ × DroneState α) → List (ℕ × DroneState α)
  | [] => []
  | (n, s) :: rest =>
    if s.status = DroneStatus.Inactive then (n, activateDrone s route) :: rest
    else (n, s) :: activateFirstInactive route rest

/-- `ManageActiveDrones` (final revision, lines 532–545): when the live
Active count is below `MIN_ACTIVE_DRONES`, activate one Inactive drone with a
freshly generated route; otherwise do nothing. -/
def manageActiveDrones (route : List (α × α)) (tbl : List (ℕ × DroneState α)) :
    List (ℕ × DroneState α) :=
  if countActive tbl < MIN_ACTIVE_DRONES then activateFirstInactive route tbl else tbl

end Simulator

/-- One element of the `updates` list pushed as the `DronesUpdated` event
(final revision, lines 482–493): id plus the drone's current kinematic fields,
status and a fresh timestamp.  Timestamps are modelled as abstract tick
instants (`ℕ`). -/
structure Update (α : Type) where
  id : ℕ
  latitude : α
  longitude : α
  altitude : α
  speed : α
  heading : α
  status : DroneStatus
  timestamp : ℕ
deriving DecidableEq

/-- One `Telemetry` row (final revision, lines 497–505), built only for
drones whose post-move status is Active.  The source stores the position as
`Point(longitude, latitude)`. -/
structure TelemetryRecord (α : Type) where
  droneId : ℕ
  latitude : α
  longitude : α
  altitude : α
  speed : α
  heading : α
  timestamp : ℕ
deriving DecidableEq

/-- A row of the durable `Drones` table as far as the engine writes it
(status and last-seen; name and frequency are never written by the loop). -/
structure DbDrone where
  id : ℕ
  status : DroneStatus
  lastSeen : ℕ
deriving DecidableEq

/-- The durable store as the engine sees it: the agents table and the
append-only telemetry table. -/
structure Db (α : Type) where
  drones : List DbDrone
  telemetry : List (TelemetryRecord α)
deriving DecidableEq

/-- A cached coverage zone (`_cachedZones` entry): id plus the circle
parameters it was seeded from (`Program.cs` lines 386–406).  The NTS polygon
geometry is embedded separately (`zonePolygonContains`). -/
structure Zone (α : Type) where
  id : ℕ
  centerLon : α
  centerLat : α
  radiusMeters : α
deriving DecidableEq

/-- One entry of the `ZoneActivityUpdated` payload (final revision, lines
601–607); the source also carries `zoneName`, omitted here. -/
structure ZoneEntry where
  zoneId : ℕ
  droneCount : ℕ
deriving DecidableEq

/-- The SignalR events the tick can emit, in emission order.  The
`statistics` payload also carries a per-frequency histogram read from the
durable store; it is not modelled because no claim mentions it. -/
inductive Event (α : Type) where
  | statistics (total active inactive : ℕ)
  | dronesUpdated (updates : List (Update α))
  | zoneActivity (entries : List ZoneEntry)
deriving DecidableEq

section Tick

variable {α : Type} [LinearOrderedField α]

/-- Build one `updates` entry from a drone's post-move state. -/
def mkUpdate (n : ℕ) (s : DroneState α) (now : ℕ) : Update α :=
  { id := n, latitude := s.latitude, longitude := s.longitude,
    altitude := s.altitude, speed := s.speed, heading := s.heading,
    status := s.status, timestamp := now }

/-- Build one telemetry row from a drone's post-move state. -/
def mkTelemetry (n : ℕ) (s : DroneState α) (now : ℕ) : TelemetryRecord α :=
  { droneId := n, latitude := s.latitude, longitude := s.longitude,
    altitude := s.altitude, speed := s.speed, heading := s.heading,
    timestamp := now }

/-- The result of the per-drone `foreach` of `SimulateAndBroadcast` (final
revision, lines 472–507): the updated state table plus the `updates` and
`telemetryRecords` lists it accumulates. -/
structure TickResult (α : Type) where
  states : List (ℕ × DroneState α)
  updates : List (Update α)
  telemetry : List (TelemetryRecord α)
deriving DecidableEq

/-- The per-drone `foreach` of `SimulateAndBroadcast`: drones are processed
in table order; an Active drone is moved by `SimulateDroneMovement`, which
reads the live Active count over the whole (partially updated) table; every
drone contributes one `updates` entry from its post-move state; drones whose
post-move status is Active contribute one telemetry row. -/
def moveLoop (ops : RealOps α) (d : ℕ → MoveDraws α) (now : ℕ) :
    List (ℕ × DroneState α) → List (ℕ × DroneState α) → List (Update α) →
    List (TelemetryRecord α) → TickResult α
  | acc, [], ups, tel => ⟨acc.reverse, ups.reverse, tel.reverse⟩
  | acc, (n, s) :: rest, ups, tel =>
    let s' := if s.status = DroneStatus.Active then
        simulateDroneMovement ops (countActive acc + 1 + countActive rest) (d n) s
      else s
    let ups' := mkUpdate n s' now :: ups
    let tel' := if s'.status = DroneStatus.Active then mkTelemetry n s' now :: tel else tel
    moveLoop ops d now ((n, s') :: acc) rest ups' tel'

/-- The flush's status-update loop (final revision, lines 513–521): every
drone of the state table that `FindAsync` locates in the durable agents table
has its durable status overwritten with the live status and its last-seen
stamp refreshed. -/
def applyStatusWrites (now : ℕ) (states : List (ℕ × DroneState α))
    (rows : List DbDrone) : List DbDrone :=
  rows.map fun r =>
    match states.find? (fun e => e.1 = r.id) with
    | some e => { r with status := e.2.status, lastSeen := now }
    | none => r

/-- The ids of the durable rows the flush writes: one per state-table entry
that exists in the agents table. -/
def statusWriteIds (states : List (ℕ × DroneState α)) (rows : List DbDrone) : List ℕ :=
  (states.filter fun e => rows.any fun r => r.id = e.1).map Prod.fst

/-- Positions of the currently Active drones, as `(longitude, latitude)`
points, exactly as `BroadcastZoneActivity` builds them (final revision,
lines 585–588). -/
def activeDronePoints (states : List (ℕ × DroneState α)) : List (α × α) :=
  (states.filter fun e => decide (e.2.status = DroneStatus.Active)).map
    fun e => (e.2.longitude, e.2.latitude)

/-- The `activeZonesInfo` list of `BroadcastZoneActivity` (final revision,
lines 590–609), parameterised by the NTS membership test
`zone.Zone.Contains(dronePoint)`: one entry per zone whose count of active
points inside is positive; built only when some drone is active. -/
def zoneActivityEntries (member : Zone α → α × α → Bool) (zones : List (Zone α))
    (pts : List (α × α)) : List ZoneEntry :=
  if pts.isEmpty then []
  else zones.filterMap fun z =>
    let c := pts.countP (member z)
    if 0 < c then some ⟨z.id, c⟩ else none

/-- `BroadcastZoneActivity` (final revision, lines 581–612): returns without
sending anything when no zones are cached, otherwise emits one
`ZoneActivityUpdated` event carrying `activeZonesInfo` (possibly empty). -/
def broadcastZoneActivity (member : Zone α → α × α → Bool) (zones : List (Zone α))
    (states : List (ℕ × DroneState α)) : List (Event α) :=
  if zones.isEmpty then []
  else [Event.zoneActivity (zoneActivityEntries member zones (activeDronePoints states))]

/-- The random draws and environment of one tick of the loop body. -/
structure TickDraws (α : Type) where
  routeType : ℕ
  routeDraws : RouteDraws α
  move : ℕ → MoveDraws α
  now : ℕ
  flushDue : Bool
  storeOk : Bool

/-- `SimulateAndBroadcast` (final revision, lines 462–530): run
`ManageActiveDrones`, move every drone, then — when there are telemetry
records and `DateTime.UtcNow.Second % 10 == 0` (`flushDue`) — append the
records and write every agent's durable status row, then send statistics;
finally push `DronesUpdated` and the zone-activity event.  A store failure
(`storeOk = false`) makes `SaveChangesAsync` throw: the durable store is
unchanged and the method aborts before any event of this tick is sent; the
exception is represented by `Except.error`.  The mutated state table survives
either way, because `_droneStates` was already updated in place. -/
def simulateAndBroadcast (ops : RealOps α) (member : Zone α → α × α → Bool)
    (zones : List (Zone α)) (tbl : List (ℕ × DroneState α)) (db : Db α)
    (o : TickDraws α) :
    List (ℕ × DroneState α) × Db α × Except Unit (List (Event α)) :=
  let tbl1 := manageActiveDrones
    (generateRoute ops simCenterLat simCenterLon o.routeType o.routeDraws) tbl
  let r := moveLoop ops o.move o.now [] tbl1 [] []
  if (!r.telemetry.isEmpty) && o.flushDue then
    if o.storeOk then
      let db' : Db α := { drones := applyStatusWrites o.now r.states db.drones,
                          telemetry := db.telemetry ++ r.telemetry }
      (r.states, db',
        Except.ok ([Event.statistics r.states.length (countActive r.states)
                      (r.states.length - countActive r.states),
                    Event.dronesUpdated r.updates] ++
                   broadcastZoneActivity member zones r.states))
    else (r.states, db, Except.error ())
  else
    (r.states, db,
      Except.ok ([Event.dronesUpdated r.updates] ++
                 broadcastZoneActivity member zones r.states))

/-- The state table produced by one tick body (lifecycle management followed
by the per-drone movement loop); `simulateAndBroadcast` returns exactly this
table in every branch, because `_droneStates` is mutated in place before the
flush can fail. -/
def tickStates (ops : RealOps α) (o : TickDraws α)
    (tbl : List (ℕ × DroneState α)) : List (ℕ × DroneState α) :=
  (moveLoop ops o.move o.now []
    (manageActiveDrones
      (generateRoute ops simCenterLat simCenterLon o.routeType o.routeDraws) tbl)
    [] []).states

/-- The `updates` list one tick body accumulates (sent as `DronesUpdated`
unless the tick aborts first). -/
def tickUpdates (ops : RealOps α) (o : TickDraws α)
    (tbl : List (ℕ × DroneState α)) : List (Update α) :=
  (moveLoop ops o.move o.now []
    (manageActiveDrones
      (generateRoute ops simCenterLat simCenterLon o.routeType o.routeDraws) tbl)
    [] []).updates

/-- The `telemetryRecords` list one tick body accumulates (appended to the
store when the flush fires). -/
def tickTelemetry (ops : RealOps α) (o : TickDraws α)
    (tbl : List (ℕ × DroneState α)) : List (TelemetryRecord α) :=
  (moveLoop ops o.move o.now []
    (manageActiveDrones
      (generateRoute ops simCenterLat simCenterLon o.routeType o.routeDraws) tbl)
    [] []).telemetry

/-- The `while` loop of `ExecuteAsync` (final revision, lines 299–318): each
iteration runs `SimulateAndBroadcast` inside a `try`/`catch`; an exception is
caught, logged and followed by a delay, after which the loop continues with
the state table and durable store as the failed tick left them. -/
def runLoop (ops : RealOps α) (member : Zone α → α × α → Bool)
    (zones : List (Zone α)) :
    List (TickDraws α) → List (ℕ × DroneState α) → Db α →
    List (Except Unit (List (Event α))) × List (ℕ × DroneState α) × Db α
  | [], tbl, db => ([], tbl, db)
  | o :: os, tbl, db =>
    let r := simulateAndBroadcast ops member zones tbl db o
    let rest := runLoop ops member zones os r.1 r.2.1
    (r.2.2 :: rest.1, rest.2.1, rest.2.2)

/-- The random draws consumed for one drone in `InitializeSimulator` (final
revision, lines 334–353). -/
structure InitDraws (α : Type) where
  posJLat : α
  posJLon : α
  altBase : ℕ
  spdJ : α
  hdgInt : ℕ
  routeType : ℕ
  routeDraws : RouteDraws α

/-- The base (not yet activated) state built for one drone by
`InitializeSimulator`. -/
def initDroneState (d : InitDraws α) : DroneState α :=
  { latitude := simCenterLat + (d.posJLat - 1 / 2) * (1 / 10),
    longitude := simCenterLon + (d.posJLon - 1 / 2) * (1 / 10),
    altitude := 100 + (d.altBase : α),
    speed := 10 + d.spdJ * 15,
    heading := (d.hdgInt : α),
    status := DroneStatus.Inactive, route := [], currentWaypointIndex := 0 }

/-- `InitializeSimulator` (final revision, lines 320–356): iterate over the
shuffled drone ids (the shuffle is random, so the id list is a parameter),
give each a fresh Inactive state, and activate the first
`MAX_ACTIVE_DRONES` of them. -/
def initTable (ops : RealOps α) (d : ℕ → InitDraws α) :
    ℕ → List ℕ → List (ℕ × DroneState α)
  | _, [] => []
  | i, n :: rest =>
    let base := initDroneState (d i)
    let s := if i < MAX_ACTIVE_DRONES then
        activateDrone base
          (generateRoute ops simCenterLat simCenterLon (d i).routeType (d i).routeDraws)
      else base
    (n, s) :: initTable ops d (i + 1) rest

end Tick

section Hub

variable {α : Type} [LinearOrderedField α]

/-- SignalR connection identifier. -/
abbrev ConnId := ℕ

/-- Messages the hub methods under scrutiny send, always via
`Clients.Caller`; each output below is tagged with its destination
connection. -/
inductive HubMsg (α : Type) where
  | subscribed (zoneId : ℕ)
  | unsubscribed (zoneId : ℕ)
  | droneTrajectory (droneId : ℕ) (points : List (TelemetryRecord α)) (requestedHours : ℕ)
deriving DecidableEq

/-- `DroneTrackingHub.SubscribeToZone` (hub file, lines 30–43): look the zone
up with `FindAsync`; when it exists, add the caller to the `zone_{id}` group
and send a `Subscribed` ack to the caller.  When the id is unknown the method
body is skipped entirely: no group change and no message.  Returns the new
group-membership list (pairs `(zoneId, connection)`) and the sent messages. -/
def subscribeToZone (zones : List (Zone α)) (groups : List (ℕ × ConnId))
    (caller : ConnId) (zoneId : ℕ) :
    List (ℕ × ConnId) × List (ConnId × HubMsg α) :=
  match zones.find? (fun z => z.id = zoneId) with
  | some _ => ((zoneId, caller) :: groups, [(caller, HubMsg.subscribed zoneId)])
  | none => (groups, [])

/-- `DroneTrackingHub.GetDroneTrajectory` (hub file, lines 54–78): select the
telemetry rows of the requested drone from the last `hours` hours, ordered by
timestamp ascending, and send them to the caller — also when the drone id is
unknown, in which case the point list is empty. -/
def getDroneTrajectory (telemetry : List (TelemetryRecord α)) (caller : ConnId)
    (droneId hours now : ℕ) : List (ConnId × HubMsg α) :=
  let startTime := now - hours * 3600
  let pts := telemetry.filter fun t =>
    decide (t.droneId = droneId) && decide (startTime ≤ t.timestamp)
  let sorted := pts.mergeSort fun a b => decide (a.timestamp ≤ b.timestamp)
  [(caller, HubMsg.droneTrajectory droneId sorted hours)]

end Hub

noncomputable section RealGeometry

/-- `metersPerDegreeLat = 111320.0` (`CreateGeodesicCirclePolygon`,
Program.cs). -/
def metersPerDegreeLat : ℝ := 111320

/-- `metersPerDegreeLon = metersPerDegreeLat * cos(centerLat * π / 180)`. -/
def metersPerDegreeLon (centerLat : ℝ) : ℝ :=
  metersPerDegreeLat * Real.cos (centerLat * Real.pi / 180)

/-- Vertex `i` of the 64-segment ring built by `CreateGeodesicCirclePolygon`
(Program.cs lines 434–454), as an `(lon, lat)` coordinate:
`angle = 2π i / 64`, `offsetX = r cos angle`, `offsetY = r sin angle`,
`lon = centerLon + offsetX / metersPerDegreeLon`,
`lat = centerLat + offsetY / metersPerDegreeLat`. -/
def circleVertex (centerLon centerLat radiusMeters : ℝ) (i : ℕ) : ℝ × ℝ :=
  let angle := 2 * Real.pi * (i : ℝ) / 64
  (centerLon + radiusMeters * Real.cos angle / metersPerDegreeLon centerLat,
   centerLat + radiusMeters * Real.sin angle / metersPerDegreeLat)

/-- The vertex set of the seeded zone polygon. -/
def circleVertices (centerLon centerLat radiusMeters : ℝ) : Set (ℝ × ℝ) :=
  {p | ∃ i < 64, p = circleVertex centerLon centerLat radiusMeters i}

/-- NTS `Polygon.Contains(point)`, used by `BroadcastZoneActivity` (final
revision, line 597) on the polygons seeded by `CreateGeodesicCirclePolygon`:
a point is contained in a polygon exactly when it meets the polygon's
topological interior.  The 64 ring vertices lie in convex position (they are
an affine image of a regular 64-gon), so the polygon's region is the convex
hull of its vertex set. -/
def zonePolygonContains (centerLon centerLat radiusMeters : ℝ) (p : ℝ × ℝ) : Prop :=
  p ∈ interior (convexHull ℝ (circleVertices centerLon centerLat radiusMeters))

/-- Squared flat-scaled distance (in meters²) from the zone center to a
`(lon, lat)` point, using the polygon's own meters-per-degree scaling. -/
def scaledDistSq (centerLon centerLat : ℝ) (p : ℝ × ℝ) : ℝ :=
  ((p.1 - centerLon) * metersPerDegreeLon centerLat) ^ 2 +
  ((p.2 - centerLat) * metersPerDegreeLat) ^ 2

/-- Modelled from the spec: "the great-circle distance between the agent's
position and the zone's center" (§4.4).  The repository contains no
great-circle implementation (the open question in §9 records that the source
uses a polygon containment test instead); the spec names no formula, so we
take the standard spherical law of cosines on a sphere of radius
6 371 000 m (the mean Earth radius), with coordinates in degrees. -/
def greatCircleDist (lon1 lat1 lon2 lat2 : ℝ) : ℝ :=
  let φ1 := lat1 * Real.pi / 180
  let φ2 := lat2 * Real.pi / 180
  let dlam := (lon2 - lon1) * Real.pi / 180
  6371000 * Real.arccos (Real.sin φ1 * Real.sin φ2 + Real.cos φ1 * Real.cos φ2 * Real.cos dlam)

/-- The remaining distance from a drone to its current target waypoint, in
the degree-space Euclidean metric `SimulateDroneMovement` uses
(`Math.Sqrt(deltaLat² + deltaLon²)`). -/
def distanceToTarget (s : DroneState ℝ) : ℝ :=
  let target := s.route.getD s.currentWaypointIndex (0, 0)
  Real.sqrt ((target.1 - s.latitude) * (target.1 - s.latitude) +
    (target.2 - s.longitude) * (target.2 - s.longitude))

end RealGeometry

section ConcreteInputs

/-- Route draws with every `NextDouble` at 0 except the route-center jitter
at 1/2 (centering the route on the requested point), `Next(5,9) = 5`,
`Next(3,5) = 3`, `Next(8,15) = 8`, clockwise coin true; over ℚ. -/
def qRouteDraws : RouteDraws ℚ :=
  { centerJLat := 1 / 2, centerJLon := 1 / 2, rectW := 0, rectH := 0,
    scatterN := 5, scatterAngle := fun _ => 0, scatterDist := fun _ => 0,
    circRadius := 0, circClockwise := true, eightRadius := 0,
    zigW := 0, zigH := 0, zigN := 3, walkN := 8,
    walkLat := fun _ => 0, walkLon := fun _ => 0 }

/-- The same degenerate draws over ℝ. -/
noncomputable def rRouteDraws : RouteDraws ℝ :=
  { centerJLat := 1 / 2, centerJLon := 1 / 2, rectW := 0, rectH := 0,
    scatterN := 5, scatterAngle := fun _ => 0, scatterDist := fun _ => 0,
    circRadius := 0, circClockwise := true, eightRadius := 0,
    zigW := 0, zigH := 0, zigN := 3, walkN := 8,
    walkLat := fun _ => 0, walkLon := fun _ => 0 }

/-- Movement draws with every jitter at 0 and no deactivation. -/
def qMoveDraws : MoveDraws ℚ := ⟨0, 0, 0, false⟩

/-- Init draws with all randoms at 0 (route draws as above). -/
def qInitDraws : InitDraws ℚ :=
  { posJLat := 0, posJLon := 0, altBase := 0, spdJ := 0, hdgInt := 0,
    routeType := 0, routeDraws := qRouteDraws }

/-- One plain tick: no flush due, store healthy. -/
def qTickDraws : TickDraws ℚ :=
  { routeType := 0, routeDraws := qRouteDraws, move := fun _ => qMoveDraws,
    now := 0, flushDue := false, storeOk := true }

/-- A membership test declaring every point outside every zone. -/
def qNoMember : Zone ℚ → ℚ × ℚ → Bool := fun _ _ => false

/-- The empty durable store over ℚ. -/
def qEmptyDb : Db ℚ := ⟨[], []⟩

/-- An Active drone sitting exactly on its single waypoint at the origin. -/
noncomputable def stActiveAtOrigin : DroneState ℝ :=
  ⟨0, 0, 100, 10, 0, DroneStatus.Active, [(0, 0)], 0⟩

/-- An Active drone with an empty route (its movement step returns at once). -/
noncomputable def stActiveNoRoute : DroneState ℝ :=
  ⟨0, 0, 100, 10, 0, DroneStatus.Active, [], 0⟩

/-- An Inactive drone with an empty route. -/
noncomputable def stInactiveNoRoute : DroneState ℝ :=
  ⟨0, 0, 100, 10, 0, DroneStatus.Inactive, [], 0⟩

/-- Six Active drones; drone 0 carries a (non-empty) route and sits on its
waypoint. -/
noncomputable def tblC2 : List (ℕ × DroneState ℝ) :=
  (0, stActiveAtOrigin) :: (List.range 5).map fun n => (n + 1, stActiveNoRoute)

/-- Deactivation draw fires for drone 0 only; all jitters 0. -/
noncomputable def moveDrawsC2 : ℕ → MoveDraws ℝ := fun n => ⟨0, 0, 0, n == 0⟩

/-- Tick draws for the deactivation counterexample (no flush). -/
noncomputable def tickDrawsC2 : TickDraws ℝ :=
  { routeType := 0, routeDraws := rRouteDraws, move := moveDrawsC2,
    now := 0, flushDue := false, storeOk := true }

/-- 15 drones, ids 1–15: ids 1–7 Active, ids 8–15 Inactive, all with empty
routes. -/
noncomputable def tblC5 : List (ℕ × DroneState ℝ) :=
  ((List.range 7).map fun n => (n + 1, stActiveNoRoute)) ++
  ((List.range 8).map fun n => (n + 8, stInactiveNoRoute))

/-- Durable agents table holding rows for ids 1–15. -/
noncomputable def dbC5 : Db ℝ := ⟨(List.range 15).map fun n => ⟨n + 1, DroneStatus.Inactive, 0⟩, []⟩

/-- Tick draws with the flush cadence due and a healthy store. -/
noncomputable def tickDrawsC5 : TickDraws ℝ :=
  { routeType := 0, routeDraws := rRouteDraws, move := fun _ => ⟨0, 0, 0, false⟩,
    now := 1, flushDue := true, storeOk := true }

/-- Tick draws with the flush cadence due and a failing store. -/
noncomputable def tickDrawsC6 : TickDraws ℝ :=
  { routeType := 0, routeDraws := rRouteDraws, move := fun _ => ⟨0, 0, 0, false⟩,
    now := 1, flushDue := true, storeOk := false }

/-- A membership test declaring every point outside every zone, over ℝ. -/
noncomputable def rNoMember : Zone ℝ → ℝ × ℝ → Bool := fun _ _ => false

/-- One seeded zone with id 1, for the hub counterexample. -/
def zonesC7 : List (Zone ℚ) := [⟨1, 0, 0, 2500⟩]

/-- The drone state of the motion counterexample: Active, two waypoints,
sitting 0.0004° north of waypoint 0 (inside the 0.0005 arrival epsilon),
with waypoint 1 due north at latitude 1. -/
noncomputable def sC4 : DroneState ℝ :=
  ⟨4 / 10000, 0, 100, 10, 0, DroneStatus.Active, [(0, 0), (1, 0)], 0⟩

/-- Movement draws for the motion counterexample: move speed exactly 0.0001,
no deactivation. -/
noncomputable def dC4 : MoveDraws ℝ := ⟨0, 0, 0, false⟩

/-- The drone state of the motion witness: Active, two waypoints, exactly
1° north of waypoint 0 (outside the arrival epsilon). -/
noncomputable def sC4far : DroneState ℝ :=
  ⟨1, 0, 100, 10, 0, DroneStatus.Active, [(0, 0), (1, 1)], 0⟩

/-- Five Active and one Inactive drone over ℚ, all with empty routes. -/
def tblC10 : List (ℕ × DroneState ℚ) :=
  ((List.range 5).map fun n => (n, ⟨0, 0, 100, 10, 0, DroneStatus.Active, [], 0⟩)) ++
  [(5, ⟨3, 4, 100, 10, 7, DroneStatus.Inactive, [], 0⟩)]

/-- A membership test declaring every point inside every zone, over ℚ. -/
def qAllMember : Zone ℚ → ℚ × ℚ → Bool := fun _ _ => true

/-- The seeded "Центральная зона": center (27.5618, 53.9022), radius 2500 m
(Program.cs lines 388–393). -/
noncomputable def zoneCentral : Zone ℝ := ⟨1, 275618 / 10000, 539022 / 10000, 2500⟩

/-- A point due east of the central zone's center at flat-scaled distance
2501.25 m — outside the seeded polygon but within great-circle distance
2500 m of the center. -/
noncomputable def pC3 : ℝ × ℝ :=
  (275618 / 10000 + 250125 / 100 / metersPerDegreeLon (539022 / 10000),
   539022 / 10000)

end ConcreteInputs

/-! ## Structural lemmas about the tick -/

section StructuralLemmas

variable {α : Type} [LinearOrderedField α]

theorem countActive_nil : countActive ([] : List (ℕ × DroneState α)) = 0 := rfl

theorem countActive_cons (e : ℕ × DroneState α) (l : List (ℕ × DroneState α)) :
    countActive (e :: l)
      = countActive l + (if e.2.status = DroneStatus.Active then 1 else 0) := by
  simp only [countActive, List.countP_cons]
  by_cases h : e.2.status = DroneStatus.Active <;> simp [h]

theorem countActive_append (l r : List (ℕ × DroneState α)) :
    countActive (l ++ r) = countActive l + countActive r := by
  simp [countActive, List.countP_append]

theorem countActive_reverse (l : List (ℕ × DroneState α)) :
    countActive l.reverse = countActive l := by
  simp [countActive, List.countP_eq_length_filter, List.filter_reverse]

theorem activateDrone_status (s : DroneState α) (r : List (α × α)) :
    (activateDrone s r).status = DroneStatus.Active := by
  cases r <;> simp [activateDrone]

theorem simulateDroneMovement_route (ops : RealOps α) (c : ℕ) (d : MoveDraws α)
    (s : DroneState α) : (simulateDroneMovement ops c d s).route = s.route := by
  cases hr : s.route <;> simp [simulateDroneMovement, hr]

theorem simulateDroneMovement_status_of_active (ops : RealOps α) (c : ℕ)
    (d : MoveDraws α) (s : DroneState α) (hs : s.status = DroneStatus.Active) :
    (simulateDroneMovement ops c d s).status = DroneStatus.Active ∨
    ((simulateDroneMovement ops c d s).status = DroneStatus.Inactive ∧
      MIN_ACTIVE_DRONES < c) := by
  cases hr : s.route with
  | nil => left; simpa [simulateDroneMovement, hr] using hs
  | cons p l =>
    by_cases hd : MIN_ACTIVE_DRONES < c ∧ d.deactivate
    · right
      refine ⟨?_, hd.1⟩
      simp [simulateDroneMovement, hr, hd]
    · left
      simpa [simulateDroneMovement, hr, hd] using hs

/-- The master shape lemma for the per-drone loop: its output states are the
already processed prefix followed by a list `t` that corresponds entry-wise
to the input drones — same id, and an Inactive drone passes through
unchanged — and the `updates` and `telemetry` lists are exactly the per-drone
projections of `t`. -/
theorem moveLoop_spec (ops : RealOps α) (d : ℕ → MoveDraws α) (now : ℕ) :
    ∀ (rest acc : List (ℕ × DroneState α)) (ups : List (Update α))
      (tel : List (TelemetryRecord α)),
    ∃ t, (moveLoop ops d now acc rest ups tel).states = acc.reverse ++ t ∧
      List.Forall₂ (fun e e' : ℕ × DroneState α =>
        e'.1 = e.1 ∧ (e.2.status = DroneStatus.Inactive → e' = e)) rest t ∧
      (moveLoop ops d now acc rest ups tel).updates
        = ups.reverse ++ t.map (fun e => mkUpdate e.1 e.2 now) ∧
      (moveLoop ops d now acc rest ups tel).telemetry
        = tel.reverse ++
          (t.filter fun e => decide (e.2.status = DroneStatus.Active)).map
            (fun e => mkTelemetry e.1 e.2 now) := by
  intro rest
  induction rest with
  | nil =>
    intro acc ups tel
    exact ⟨[], by simp [moveLoop], List.Forall₂.nil, by simp [moveLoop], by simp [moveLoop]⟩
  | cons e rest ih =>
    intro acc ups tel
    obtain ⟨n, s⟩ := e
    set s' := if s.status = DroneStatus.Active then
        simulateDroneMovement ops (countActive acc + 1 + countActive rest) (d n) s
      else s with hs'
    have hstep : moveLoop ops d now acc ((n, s) :: rest) ups tel
        = moveLoop ops d now ((n, s') :: acc) rest (mkUpdate n s' now :: ups)
            (if s'.status = DroneStatus.Active then mkTelemetry n s' now :: tel else tel) := by
      simp only [moveLoop, hs']
    obtain ⟨t, h1, h2, h3, h4⟩ := ih ((n, s') :: acc) (mkUpdate n s' now :: ups)
      (if s'.status = DroneStatus.Active then mkTelemetry n s' now :: tel else tel)
    refine ⟨(n, s') :: t, ?_, ?_, ?_, ?_⟩
    · rw [hstep, h1]; simp
    · refine List.Forall₂.cons ⟨rfl, ?_⟩ h2
      intro hsi
      have : s.status ≠ DroneStatus.Active := by rw [hsi]; intro h; cases h
      simp [hs', this]
    · rw [hstep, h3]; simp
    · rw [hstep, h4]
      by_cases ha : s'.status = DroneStatus.Active <;> simp [ha]

/-- One unfolding step of the movement loop for an Active head. -/
theorem moveLoop_cons_active (ops : RealOps α) (d : ℕ → MoveDraws α) (now : ℕ)
    (n : ℕ) (s : DroneState α) (rest acc : List (ℕ × DroneState α))
    (ups : List (Update α)) (tel : List (TelemetryRecord α))
    (hs : s.status = DroneStatus.Active) :
    moveLoop ops d now acc ((n, s) :: rest) ups tel
      = moveLoop ops d now
          ((n, simulateDroneMovement ops (countActive acc + 1 + countActive rest) (d n) s) :: acc)
          rest
          (mkUpdate n (simulateDroneMovement ops (countActive acc + 1 + countActive rest) (d n) s) now :: ups)
          (if (simulateDroneMovement ops (countActive acc + 1 + countActive rest) (d n) s).status
              = DroneStatus.Active then
            mkTelemetry n (simulateDroneMovement ops (countActive acc + 1 + countActive rest) (d n) s) now :: tel
          else tel) := by
  simp only [moveLoop, hs, if_pos]

/-- One unfolding step of the movement loop for a non-Active head. -/
theorem moveLoop_cons_inactive (ops : RealOps α) (d : ℕ → MoveDraws α) (now : ℕ)
    (n : ℕ) (s : DroneState α) (rest acc : List (ℕ × DroneState α))
    (ups : List (Update α)) (tel : List (TelemetryRecord α))
    (hs : ¬s.status = DroneStatus.Active) :
    moveLoop ops d now acc ((n, s) :: rest) ups tel
      = moveLoop ops d now ((n, s) :: acc) rest (mkUpdate n s now :: ups) tel := by
  simp only [moveLoop, hs, if_neg, ite_false]

/-- The Active-count never increases across the movement loop. -/
theorem countActive_moveLoop_le (ops : RealOps α) (d : ℕ → MoveDraws α) (now : ℕ) :
    ∀ (rest acc : List (ℕ × DroneState α)) (ups : List (Update α))
      (tel : List (TelemetryRecord α)),
    countActive (moveLoop ops d now acc rest ups tel).states
      ≤ countActive acc + countActive rest := by
  intro rest
  induction rest with
  | nil =>
    intro acc ups tel
    simp [moveLoop, countActive_reverse, countActive_nil]
  | cons e rest ih =>
    intro acc ups tel
    obtain ⟨n, s⟩ := e
    by_cases hs : s.status = DroneStatus.Active
    · rw [moveLoop_cons_active ops d now n s rest acc ups tel hs]
      refine (ih _ _ _).trans ?_
      have h1 : countActive ((n, s) :: rest) = countActive rest + 1 := by
        rw [countActive_cons]; simp [hs]
      rcases simulateDroneMovement_status_of_active ops
          (countActive acc + 1 + countActive rest) (d n) s hs with h | h
      · have h2 : countActive
            ((n, simulateDroneMovement ops (countActive acc + 1 + countActive rest) (d n) s) :: acc)
            = countActive acc + 1 := by
          rw [countActive_cons]; simp [h]
        rw [h1, h2]; omega
      · have h2 : countActive
            ((n, simulateDroneMovement ops (countActive acc + 1 + countActive rest) (d n) s) :: acc)
            = countActive acc := by
          rw [countActive_cons]; simp [h.1]
        rw [h1, h2]; omega
    · rw [moveLoop_cons_inactive ops d now n s rest acc ups tel hs]
      refine (ih _ _ _).trans ?_
      have h1 : countActive ((n, s) :: rest) = countActive rest := by
        rw [countActive_cons]; simp [hs]
      have h2 : countActive ((n, s) :: acc) = countActive acc := by
        rw [countActive_cons]; simp [hs]
      rw [h1, h2]

/-- The Active-count never drops below `MIN_ACTIVE_DRONES` across the
movement loop (unless it already was below it). -/
theorem countActive_moveLoop_ge (ops : RealOps α) (d : ℕ → MoveDraws α) (now : ℕ) :
    ∀ (rest acc : List (ℕ × DroneState α)) (ups : List (Update α))
      (tel : List (TelemetryRecord α)),
    min (countActive acc + countActive rest) MIN_ACTIVE_DRONES
      ≤ countActive (moveLoop ops d now acc rest ups tel).states := by
  intro rest
  induction rest with
  | nil =>
    intro acc ups tel
    simp only [moveLoop, countActive_reverse, countActive_nil]
    omega
  | cons e rest ih =>
    intro acc ups tel
    obtain ⟨n, s⟩ := e
    by_cases hs : s.status = DroneStatus.Active
    · rw [moveLoop_cons_active ops d now n s rest acc ups tel hs]
      refine le_trans ?_ (ih _ _ _)
      have h1 : countActive ((n, s) :: rest) = countActive rest + 1 := by
        rw [countActive_cons]; simp [hs]
      rcases simulateDroneMovement_status_of_active ops
          (countActive acc + 1 + countActive rest) (d n) s hs with h | h
      · have h2 : countActive
            ((n, simulateDroneMovement ops (countActive acc + 1 + countActive rest) (d n) s) :: acc)
            = countActive acc + 1 := by
          rw [countActive_cons]; simp [h]
        rw [h1, h2]; omega
      · have h2 : countActive
            ((n, simulateDroneMovement ops (countActive acc + 1 + countActive rest) (d n) s) :: acc)
            = countActive acc := by
          rw [countActive_cons]; simp [h.1]
        have h3 := h.2
        rw [h1, h2]
        simp only [MIN_ACTIVE_DRONES] at h3 ⊢
        omega
    · rw [moveLoop_cons_inactive ops d now n s rest acc ups tel hs]
      refine le_trans ?_ (ih _ _ _)
      have h1 : countActive ((n, s) :: rest) = countActive rest := by
        rw [countActive_cons]; simp [hs]
      have h2 : countActive ((n, s) :: acc) = countActive acc := by
        rw [countActive_cons]; simp [hs]
      rw [h1, h2]

/-- When the Active count is already at or above the minimum,
`ManageActiveDrones` does nothing. -/
theorem manageActiveDrones_eq_of_min_le (route : List (α × α))
    (tbl : List (ℕ × DroneState α)) (h : MIN_ACTIVE_DRONES ≤ countActive tbl) :
    manageActiveDrones route tbl = tbl := by
  simp [manageActiveDrones, Nat.not_lt.mpr h]

/-- One tick body keeps the Active count within `[MIN, MAX]`. -/
theorem tickStates_band (ops : RealOps α) (o : TickDraws α)
    (tbl : List (ℕ × DroneState α)) (h5 : MIN_ACTIVE_DRONES ≤ countActive tbl)
    (h10 : countActive tbl ≤ MAX_ACTIVE_DRONES) :
    MIN_ACTIVE_DRONES ≤ countActive (tickStates ops o tbl) ∧
    countActive (tickStates ops o tbl) ≤ MAX_ACTIVE_DRONES := by
  unfold tickStates
  rw [manageActiveDrones_eq_of_min_le _ _ h5]
  have hge := countActive_moveLoop_ge ops o.move o.now tbl [] [] []
  have hle := countActive_moveLoop_le ops o.move o.now tbl [] [] []
  rw [countActive_nil] at hge hle
  simp only [MIN_ACTIVE_DRONES, MAX_ACTIVE_DRONES] at h5 h10 hge ⊢
  omega

/-- The tick body returns the post-movement table in every branch. -/
theorem simulateAndBroadcast_fst (ops : RealOps α) (member : Zone α → α × α → Bool)
    (zones : List (Zone α)) (tbl : List (ℕ × DroneState α)) (db : Db α)
    (o : TickDraws α) :
    (simulateAndBroadcast ops member zones tbl db o).1 = tickStates ops o tbl := by
  unfold simulateAndBroadcast tickStates
  dsimp only
  split
  · split <;> rfl
  · rfl

/-- The state table after running the loop, with the band invariant carried
along. -/
theorem runLoop_states_band (ops : RealOps α) (member : Zone α → α × α → Bool)
    (zones : List (Zone α)) :
    ∀ (os : List (TickDraws α)) (tbl : List (ℕ × DroneState α)) (db : Db α),
    MIN_ACTIVE_DRONES ≤ countActive tbl → countActive tbl ≤ MAX_ACTIVE_DRONES →
    MIN_ACTIVE_DRONES ≤ countActive (runLoop ops member zones os tbl db).2.1 ∧
    countActive (runLoop ops member zones os tbl db).2.1 ≤ MAX_ACTIVE_DRONES := by
  intro os
  induction os with
  | nil => intro tbl db h5 h10; exact ⟨h5, h10⟩
  | cons o os ih =>
    intro tbl db h5 h10
    have hband := tickStates_band ops o tbl h5 h10
    have hfst := simulateAndBroadcast_fst ops member zones tbl db o
    simp only [runLoop]
    rw [hfst]
    exact ih _ _ hband.1 hband.2

/-- `InitializeSimulator` activates exactly `min fleet MAX` drones. -/
theorem countActive_initTable (ops : RealOps α) (dr : ℕ → InitDraws α) :
    ∀ (ids : List ℕ) (i : ℕ),
    countActive (initTable ops dr i ids) = min ids.length (MAX_ACTIVE_DRONES - i) := by
  intro ids
  induction ids with
  | nil => intro i; simp [initTable, countActive]
  | cons n ids ih =>
    intro i
    simp only [initTable]
    rw [countActive_cons, ih (i + 1)]
    by_cases hi : i < MAX_ACTIVE_DRONES
    · rw [if_pos hi]
      simp only [activateDrone_status, if_pos]
      simp only [MAX_ACTIVE_DRONES, List.length_cons] at hi ⊢
      omega
    · rw [if_neg hi]
      have hne : ¬((initDroneState (dr i) : DroneState α).status = DroneStatus.Active) := by
        simp [initDroneState]
      rw [if_neg hne]
      simp only [MAX_ACTIVE_DRONES, List.length_cons] at hi ⊢
      omega

end StructuralLemmas

/-! ## Claim C1 -/

/-- C1: once the loop has run at least one tick from the provisioned start
(`InitializeSimulator` over a fleet of at least `MIN_ACTIVE_DRONES` drones),
the number of drones with live status Active stays within
`[MIN_ACTIVE_DRONES, MAX_ACTIVE_DRONES] = [5, 10]`: activation happens only
when the live count is below the minimum, and each probabilistic
deactivation is permitted only while the live count exceeds the minimum. -/
theorem claim1_bounded_active_population {α : Type} [LinearOrderedField α]
    (ops : RealOps α) (member : Zone α → α × α → Bool) (zones : List (Zone α))
    (db : Db α) (ids : List ℕ) (dr : ℕ → InitDraws α) (os : List (TickDraws α))
    (hfleet : MIN_ACTIVE_DRONES ≤ ids.length) (hticks : 1 ≤ os.length) :
    MIN_ACTIVE_DRONES
      ≤ countActive (runLoop ops member zones os (initTable ops dr 0 ids) db).2.1 ∧
    countActive (runLoop ops member zones os (initTable ops dr 0 ids) db).2.1
      ≤ MAX_ACTIVE_DRONES := by
  have hinit := countActive_initTable ops dr ids 0
  have h5 : MIN_ACTIVE_DRONES ≤ countActive (initTable ops dr 0 ids) := by
    rw [hinit]
    simp only [MIN_ACTIVE_DRONES, MAX_ACTIVE_DRONES] at hfleet ⊢
    omega
  have h10 : countActive (initTable ops dr 0 ids) ≤ MAX_ACTIVE_DRONES := by
    rw [hinit]
    simp only [MAX_ACTIVE_DRONES]
    omega
  exact runLoop_states_band ops member zones os _ db h5 h10

/-! ## Derived tick projections -/

section TickProjections

variable {α : Type} [LinearOrderedField α]

theorem activateFirstInactive_length (route : List (α × α)) :
    ∀ tbl : List (ℕ × DroneState α),
    (activateFirstInactive route tbl).length = tbl.length := by
  intro tbl
  induction tbl with
  | nil => rfl
  | cons e rest ih =>
    obtain ⟨n, s⟩ := e
    by_cases hs : s.status = DroneStatus.Inactive <;>
      simp [activateFirstInactive, hs, ih]

theorem manageActiveDrones_length (route : List (α × α))
    (tbl : List (ℕ × DroneState α)) :
    (manageActiveDrones route tbl).length = tbl.length := by
  unfold manageActiveDrones
  split
  · exact activateFirstInactive_length route tbl
  · rfl

/-- The tick's `updates` and `telemetryRecords` are the per-drone projections
of the post-move table: one update per drone, one telemetry row per drone
whose post-move status is Active. -/
theorem tickProjections (ops : RealOps α) (o : TickDraws α)
    (tbl : List (ℕ × DroneState α)) :
    tickUpdates ops o tbl
      = (tickStates ops o tbl).map (fun e => mkUpdate e.1 e.2 o.now) ∧
    tickTelemetry ops o tbl
      = ((tickStates ops o tbl).filter
          fun e => decide (e.2.status = DroneStatus.Active)).map
          (fun e => mkTelemetry e.1 e.2 o.now) := by
  obtain ⟨t, h1, h2, h3, h4⟩ := moveLoop_spec ops o.move o.now
    (manageActiveDrones
      (generateRoute ops simCenterLat simCenterLon o.routeType o.routeDraws) tbl)
    [] [] []
  have hst : tickStates ops o tbl = t := by
    unfold tickStates; simpa using h1
  constructor
  · unfold tickUpdates; rw [hst, h3]; simp
  · unfold tickTelemetry; rw [hst, h4]; simp

/-- When no activation can fire, the tick relates the old and new tables
entry-wise: ids are preserved and Inactive drones pass through unchanged. -/
theorem tickStates_forall2 (ops : RealOps α) (o : TickDraws α)
    (tbl : List (ℕ × DroneState α)) (hmin : MIN_ACTIVE_DRONES ≤ countActive tbl) :
    List.Forall₂ (fun e e' : ℕ × DroneState α =>
      e'.1 = e.1 ∧ (e.2.status = DroneStatus.Inactive → e' = e))
      tbl (tickStates ops o tbl) := by
  unfold tickStates
  rw [manageActiveDrones_eq_of_min_le _ _ hmin]
  obtain ⟨t, h1, h2, h3, h4⟩ := moveLoop_spec ops o.move o.now tbl [] [] []
  have : (moveLoop ops o.move o.now [] tbl [] []).states = t := by simpa using h1
  rw [this]
  exact h2

theorem tickStates_length (ops : RealOps α) (o : TickDraws α)
    (tbl : List (ℕ × DroneState α)) :
    (tickStates ops o tbl).length = tbl.length := by
  obtain ⟨t, h1, h2, h3, h4⟩ := moveLoop_spec ops o.move o.now
    (manageActiveDrones
      (generateRoute ops simCenterLat simCenterLon o.routeType o.routeDraws) tbl)
    [] [] []
  have hst : tickStates ops o tbl = t := by
    unfold tickStates; simpa using h1
  rw [hst, ← h2.length_eq, manageActiveDrones_length]

/-- The tick produces exactly one telemetry row per post-move Active drone. -/
theorem tickTelemetry_length (ops : RealOps α) (o : TickDraws α)
    (tbl : List (ℕ × DroneState α)) :
    (tickTelemetry ops o tbl).length = countActive (tickStates ops o tbl) := by
  rw [(tickProjections ops o tbl).2]
  simp [countActive, List.countP_eq_length_filter]

/-- The flush branch of the tick under a due cadence and a healthy store. -/
theorem simulateAndBroadcast_flush_ok (ops : RealOps α)
    (member : Zone α → α × α → Bool) (zones : List (Zone α))
    (tbl : List (ℕ × DroneState α)) (db : Db α) (o : TickDraws α)
    (hflush : o.flushDue = true) (hok : o.storeOk = true)
    (hne : tickTelemetry ops o tbl ≠ []) :
    (simulateAndBroadcast ops member zones tbl db o).2.1
      = ⟨applyStatusWrites o.now (tickStates ops o tbl) db.drones,
         db.telemetry ++ tickTelemetry ops o tbl⟩ ∧
    (simulateAndBroadcast ops member zones tbl db o).2.2
      = Except.ok ([Event.statistics (tickStates ops o tbl).length
            (countActive (tickStates ops o tbl))
            ((tickStates ops o tbl).length - countActive (tickStates ops o tbl)),
          Event.dronesUpdated (tickUpdates ops o tbl)] ++
          broadcastZoneActivity member zones (tickStates ops o tbl)) := by
  have hcond : (!(tickTelemetry ops o tbl).isEmpty && o.flushDue) = true := by
    rw [hflush]
    cases hemp : (tickTelemetry ops o tbl).isEmpty
    · rfl
    · exact absurd (List.isEmpty_iff.mp hemp) hne
  unfold simulateAndBroadcast
  dsimp only
  rw [show (moveLoop ops o.move o.now []
      (manageActiveDrones
        (generateRoute ops simCenterLat simCenterLon o.routeType o.routeDraws) tbl)
      [] []).telemetry = tickTelemetry ops o tbl from rfl]
  rw [hcond]
  simp only [if_pos, hok, ite_true]
  exact ⟨rfl, rfl⟩

/-- The failing-store branch: the tick still moves the fleet and leaves the
durable store untouched. -/
theorem simulateAndBroadcast_store_fail (ops : RealOps α)
    (member : Zone α → α × α → Bool) (zones : List (Zone α))
    (tbl : List (ℕ × DroneState α)) (db : Db α) (o : TickDraws α)
    (hbad : o.storeOk = false) :
    (simulateAndBroadcast ops member zones tbl db o).1 = tickStates ops o tbl ∧
    (simulateAndBroadcast ops member zones tbl db o).2.1 = db := by
  refine ⟨simulateAndBroadcast_fst ops member zones tbl db o, ?_⟩
  unfold simulateAndBroadcast
  dsimp only
  split
  · rw [hbad]; rfl
  · rfl

/-- A failing store on a flush tick aborts the tick's event emission
entirely: the result is the caught exception, with no event sent. -/
theorem simulateAndBroadcast_store_fail_events (ops : RealOps α)
    (member : Zone α → α × α → Bool) (zones : List (Zone α))
    (tbl : List (ℕ × DroneState α)) (db : Db α) (o : TickDraws α)
    (hflush : o.flushDue = true) (hbad : o.storeOk = false)
    (hne : tickTelemetry ops o tbl ≠ []) :
    (simulateAndBroadcast ops member zones tbl db o).2.2 = Except.error () := by
  have hcond : (!(tickTelemetry ops o tbl).isEmpty && o.flushDue) = true := by
    rw [hflush]
    cases hemp : (tickTelemetry ops o tbl).isEmpty
    · rfl
    · exact absurd (List.isEmpty_iff.mp hemp) hne
  unfold simulateAndBroadcast
  dsimp only
  rw [show (moveLoop ops o.move o.now []
      (manageActiveDrones
        (generateRoute ops simCenterLat simCenterLon o.routeType o.routeDraws) tbl)
      [] []).telemetry = tickTelemetry ops o tbl from rfl]
  rw [hcond, hbad]
  rfl

/-- The loop runs one iteration per scheduled tick no matter how many ticks
failed: the `catch` at the loop boundary swallows every tick error. -/
theorem runLoop_length (ops : RealOps α) (member : Zone α → α × α → Bool)
    (zones : List (Zone α)) :
    ∀ (os : List (TickDraws α)) (tbl : List (ℕ × DroneState α)) (db : Db α),
    (runLoop ops member zones os tbl db).1.length = os.length := by
  intro os
  induction os with
  | nil => intro tbl db; rfl
  | cons o os ih =>
    intro tbl db
    simp only [runLoop, List.length_cons]
    rw [ih]

end TickProjections

/-- Witness for C1 at a concrete input: the seeded fleet of 15 drones, one
tick. -/
theorem claim1_bounded_active_population_witness :
    MIN_ACTIVE_DRONES ≤ (List.range 15).length ∧ 1 ≤ [qTickDraws].length ∧
    (MIN_ACTIVE_DRONES ≤ countActive
        (runLoop ratOps qNoMember [] [qTickDraws]
          (initTable ratOps (fun _ => qInitDraws) 0 (List.range 15)) qEmptyDb).2.1 ∧
     countActive (runLoop ratOps qNoMember [] [qTickDraws]
          (initTable ratOps (fun _ => qInitDraws) 0 (List.range 15)) qEmptyDb).2.1
       ≤ MAX_ACTIVE_DRONES) :=
  ⟨by decide, by decide,
    claim1_bounded_active_population ratOps qNoMember [] qEmptyDb (List.range 15)
      (fun _ => qInitDraws) [qTickDraws] (by decide) (by decide)⟩

/-! ## Claim C10 -/

/-- C10: on every tick (of a reachable state, where at least
`MIN_ACTIVE_DRONES` drones are active so no activation rewrites an Inactive
drone), the `DronesUpdated` payload contains exactly one entry per drone of
the whole fleet, in table order: its length equals the fleet size, every
entry carries the tick's fresh timestamp, and an Inactive drone is re-sent
with its frozen latitude, longitude, altitude, speed and heading
(`mkUpdate` of its unchanged state). -/
theorem claim10_broadcast_covers_whole_fleet {α : Type} [LinearOrderedField α]
    (ops : RealOps α) (o : TickDraws α) (tbl : List (ℕ × DroneState α))
    (hmin : MIN_ACTIVE_DRONES ≤ countActive tbl) :
    (tickUpdates ops o tbl).length = tbl.length ∧
    List.Forall₂ (fun (e : ℕ × DroneState α) (u : Update α) =>
      u.id = e.1 ∧ u.timestamp = o.now ∧
      (e.2.status = DroneStatus.Inactive → u = mkUpdate e.1 e.2 o.now))
      tbl (tickUpdates ops o tbl) := by
  have hu := (tickProjections ops o tbl).1
  have hf := tickStates_forall2 ops o tbl hmin
  constructor
  · rw [hu, List.length_map, tickStates_length]
  · rw [hu]
    rw [List.forall₂_map_right_iff]
    refine hf.imp ?_
    rintro e e' ⟨hid, hinact⟩
    refine ⟨by simp [mkUpdate, hid], by simp [mkUpdate], ?_⟩
    intro hi
    rw [hinact hi]

/-- Witness for C10: a six-drone table with five Active and one Inactive
drone over ℚ. -/
theorem claim10_broadcast_covers_whole_fleet_witness :
    MIN_ACTIVE_DRONES ≤ countActive tblC10 ∧
    ((tickUpdates ratOps qTickDraws tblC10).length = tblC10.length ∧
     List.Forall₂ (fun (e : ℕ × DroneState ℚ) (u : Update ℚ) =>
       u.id = e.1 ∧ u.timestamp = qTickDraws.now ∧
       (e.2.status = DroneStatus.Inactive → u = mkUpdate e.1 e.2 qTickDraws.now))
       tblC10 (tickUpdates ratOps qTickDraws tblC10)) :=
  ⟨by decide,
    claim10_broadcast_covers_whole_fleet ratOps qTickDraws tblC10 (by decide)⟩

/-! ## Claim C2 -/

/-- C2 (amended): in any state where at least `MIN_ACTIVE_DRONES` drones are
active (as in every reachable post-initialisation state, by C1), a tick
leaves every Inactive drone entirely unchanged — position, altitude, speed,
heading, route and waypoint index — and the geofence evaluator's point list
is built from Active drones only, so an Inactive drone contributes to no
zone-activity count.  The original claim's further assertion that an
Inactive drone's route is empty is false (see the counterexample): random
deactivation keeps the assigned route. -/
theorem claim2_inactive_frozen_and_excluded {α : Type} [LinearOrderedField α]
    (ops : RealOps α) (o : TickDraws α) (tbl : List (ℕ × DroneState α))
    (hmin : MIN_ACTIVE_DRONES ≤ countActive tbl)
    (e : ℕ × DroneState α) (states : List (ℕ × DroneState α))
    (he : e.2.status = DroneStatus.Inactive) :
    List.Forall₂ (fun a b : ℕ × DroneState α =>
      a.2.status = DroneStatus.Inactive → b = a) tbl (tickStates ops o tbl) ∧
    activeDronePoints (e :: states) = activeDronePoints states := by
  constructor
  · exact (tickStates_forall2 ops o tbl hmin).imp fun a b h => h.2
  · have : ¬(e.2.status = DroneStatus.Active) := by rw [he]; intro h; cases h
    simp [activeDronePoints, this]

/-- Witness for C2 at a concrete input: the six-drone ℚ table. -/
theorem claim2_inactive_frozen_and_excluded_witness :
    MIN_ACTIVE_DRONES ≤ countActive tblC10 ∧
    ((5, (⟨3, 4, 100, 10, 7, DroneStatus.Inactive, [], 0⟩ : DroneState ℚ)).2.status
        = DroneStatus.Inactive) ∧
    (List.Forall₂ (fun a b : ℕ × DroneState ℚ =>
        a.2.status = DroneStatus.Inactive → b = a) tblC10
        (tickStates ratOps qTickDraws tblC10) ∧
      activeDronePoints
          ((5, (⟨3, 4, 100, 10, 7, DroneStatus.Inactive, [], 0⟩ : DroneState ℚ)) :: tblC10)
        = activeDronePoints tblC10) :=
  ⟨by decide, by decide,
    claim2_inactive_frozen_and_excluded ratOps qTickDraws tblC10 (by decide)
      (5, ⟨3, 4, 100, 10, 7, DroneStatus.Inactive, [], 0⟩) tblC10 (by decide)⟩

/-- C2 counterexample: the claim asserts every Inactive drone has an empty
route, but random deactivation (final revision, line 576) only flips the
status and never clears `Route`.  Concretely: six Active drones, drone 0
sitting on its one-waypoint route with the deactivation draw firing; after
one tick drone 0 is Inactive yet still carries its non-empty route. -/
theorem claim2_inactive_empty_route_counterexample :
    ∃ s : DroneState ℝ,
    (tickStates realOps tickDrawsC2 tblC2).head? = some (0, s) ∧
    s.status = DroneStatus.Inactive ∧ s.route = [(0, 0)] := by
  have hmove : ∀ c : ℕ, MIN_ACTIVE_DRONES < c →
      simulateDroneMovement realOps c (tickDrawsC2.move 0) stActiveAtOrigin
        = ⟨0, 0, 95, 17 / 2, 0, DroneStatus.Inactive, [(0, 0)], 0⟩ := by
    intro c hc
    show simulateDroneMovement realOps c ⟨0, 0, 0, true⟩
        ⟨0, 0, 100, 10, 0, DroneStatus.Active, [(0, 0)], 0⟩ = _
    unfold simulateDroneMovement
    dsimp only
    simp only [List.getD_cons_zero]
    norm_num [realOps, Real.sqrt_zero, hc, min_def, max_def]
  have hskip : ∀ (c : ℕ) (k : ℕ),
      simulateDroneMovement realOps c (tickDrawsC2.move k) stActiveNoRoute
        = stActiveNoRoute := fun _ _ => rfl
  unfold tickStates
  rw [manageActiveDrones_eq_of_min_le _ _ (by decide)]
  have htbl : tblC2 = (0, stActiveAtOrigin) ::
      [(1, stActiveNoRoute), (2, stActiveNoRoute), (3, stActiveNoRoute),
       (4, stActiveNoRoute), (5, stActiveNoRoute)] := rfl
  rw [htbl]
  rw [moveLoop_cons_active realOps tickDrawsC2.move tickDrawsC2.now 0
    stActiveAtOrigin _ _ _ _ rfl]
  rw [hmove _ (by decide)]
  simp only [moveLoop, hskip, stActiveNoRoute]
  exact ⟨_, rfl, rfl, rfl⟩

/-! ## Claim C5 -/

/-- C5 (amended): a flush that fires while exactly 7 drones are Active
appends exactly 7 telemetry samples — one per Active drone, snapshotted from
its post-move state — but the durable status/last-seen write loop iterates
over the whole fleet (`foreach` over `_droneStates` with `FindAsync`), so it
touches one durable row per fleet drone found in the agents table: all 15
rows for the seeded fleet, not 7. -/
theorem claim5_flush_amended {α : Type} [LinearOrderedField α]
    (ops : RealOps α) (member : Zone α → α × α → Bool) (zones : List (Zone α))
    (tbl : List (ℕ × DroneState α)) (db : Db α) (o : TickDraws α)
    (hflush : o.flushDue = true) (hok : o.storeOk = true)
    (hcount : countActive (tickStates ops o tbl) = 7) :
    (simulateAndBroadcast ops member zones tbl db o).2.1.telemetry
      = db.telemetry ++ tickTelemetry ops o tbl ∧
    (tickTelemetry ops o tbl).length = 7 ∧
    (simulateAndBroadcast ops member zones tbl db o).2.1.drones
      = applyStatusWrites o.now (tickStates ops o tbl) db.drones ∧
    ((∀ e ∈ tickStates ops o tbl, (db.drones.any fun r => r.id = e.1) = true) →
      (statusWriteIds (tickStates ops o tbl) db.drones).length = tbl.length) := by
  have hlen : (tickTelemetry ops o tbl).length = 7 := by
    rw [tickTelemetry_length, hcount]
  have hne : tickTelemetry ops o tbl ≠ [] := by
    intro h; rw [h] at hlen; cases hlen
  have hdb := simulateAndBroadcast_flush_ok ops member zones tbl db o hflush hok hne
  refine ⟨by rw [hdb.1], hlen, by rw [hdb.1], ?_⟩
  intro hall
  unfold statusWriteIds
  rw [List.length_map, List.filter_eq_self.mpr hall, tickStates_length]

/-- Witness for C5: the 15-drone table with 7 Active drones and all 15 ids
present in the durable agents table. -/
theorem claim5_flush_amended_witness :
    countActive (tickStates realOps tickDrawsC5 tblC5) = 7 ∧
    ((simulateAndBroadcast realOps rNoMember [] tblC5 dbC5 tickDrawsC5).2.1.telemetry
        = dbC5.telemetry ++ tickTelemetry realOps tickDrawsC5 tblC5 ∧
     (tickTelemetry realOps tickDrawsC5 tblC5).length = 7 ∧
     (simulateAndBroadcast realOps rNoMember [] tblC5 dbC5 tickDrawsC5).2.1.drones
        = applyStatusWrites tickDrawsC5.now (tickStates realOps tickDrawsC5 tblC5) dbC5.drones ∧
     ((∀ e ∈ tickStates realOps tickDrawsC5 tblC5,
         (dbC5.drones.any fun r => r.id = e.1) = true) →
       (statusWriteIds (tickStates realOps tickDrawsC5 tblC5) dbC5.drones).length
         = tblC5.length)) :=
  ⟨by decide,
    claim5_flush_amended realOps rNoMember [] tblC5 dbC5 tickDrawsC5 rfl rfl (by decide)⟩

/-- C5 counterexample: with 7 Active drones among a fleet of 15 (all present
in the durable agents table), the firing flush appends exactly 7 telemetry
samples but refreshes the durable status/last-seen of all 15 rows — not 7 as
the claim states.  `lastSeen = now` identifies the rows the flush wrote. -/
theorem claim5_seven_rows_counterexample :
    countActive (tickStates realOps tickDrawsC5 tblC5) = 7 ∧
    (simulateAndBroadcast realOps rNoMember [] tblC5 dbC5 tickDrawsC5).2.1.telemetry.length = 7 ∧
    ¬((simulateAndBroadcast realOps rNoMember [] tblC5 dbC5 tickDrawsC5).2.1.drones.countP
        (fun r => decide (r.lastSeen = tickDrawsC5.now)) = 7) ∧
    (simulateAndBroadcast realOps rNoMember [] tblC5 dbC5 tickDrawsC5).2.1.drones.countP
        (fun r => decide (r.lastSeen = tickDrawsC5.now)) = 15 :=
  ⟨by decide, by decide, by decide, by decide⟩

/-! ## Claim C6 -/

/-- C6 (amended): a store failure during the flush never stops the loop —
the exception is caught at the loop boundary, the loop executes one
iteration per scheduled tick regardless of failures, the failing tick's
in-memory motion still happened and the durable store is untouched (so the
flush is effectively retried at the next due cadence, which appends that
tick's fresh samples).  However, the failing tick's own event emission is
aborted: the `DronesUpdated` push and the zone-activity push of that very
tick do not happen, contrary to the claim's last part (see the
counterexample). -/
theorem claim6_store_failure_amended {α : Type} [LinearOrderedField α]
    (ops : RealOps α) (member : Zone α → α × α → Bool) (zones : List (Zone α))
    (os : List (TickDraws α)) (tbl tbl2 : List (ℕ × DroneState α))
    (db db2 : Db α) (o o' : TickDraws α)
    (hbad : o.storeOk = false) (hok : o'.storeOk = true) (hdue : o'.flushDue = true)
    (hne : tickTelemetry ops o' tbl2 ≠ []) :
    (runLoop ops member zones os tbl db).1.length = os.length ∧
    (simulateAndBroadcast ops member zones tbl2 db2 o).1 = tickStates ops o tbl2 ∧
    (simulateAndBroadcast ops member zones tbl2 db2 o).2.1 = db2 ∧
    (simulateAndBroadcast ops member zones tbl2 db2 o').2.1.telemetry
      = db2.telemetry ++ tickTelemetry ops o' tbl2 := by
  have hfail := simulateAndBroadcast_store_fail ops member zones tbl2 db2 o hbad
  have hok2 := simulateAndBroadcast_flush_ok ops member zones tbl2 db2 o' hdue hok hne
  exact ⟨runLoop_length ops member zones os tbl db, hfail.1, hfail.2, by rw [hok2.1]⟩

/-- Witness for C6: one failing tick and one healthy flush tick on the
15-drone table. -/
theorem claim6_store_failure_amended_witness :
    tickDrawsC6.storeOk = false ∧ tickDrawsC5.storeOk = true ∧
    tickDrawsC5.flushDue = true ∧ tickTelemetry realOps tickDrawsC5 tblC5 ≠ [] ∧
    ((runLoop realOps rNoMember [] [tickDrawsC6] tblC5 dbC5).1.length = 1 ∧
     (simulateAndBroadcast realOps rNoMember [] tblC5 dbC5 tickDrawsC6).1
        = tickStates realOps tickDrawsC6 tblC5 ∧
     (simulateAndBroadcast realOps rNoMember [] tblC5 dbC5 tickDrawsC6).2.1 = dbC5 ∧
     (simulateAndBroadcast realOps rNoMember [] tblC5 dbC5 tickDrawsC5).2.1.telemetry
        = dbC5.telemetry ++ tickTelemetry realOps tickDrawsC5 tblC5) :=
  ⟨rfl, rfl, rfl, by decide,
    claim6_store_failure_amended realOps rNoMember [] [tickDrawsC6] tblC5 tblC5
      dbC5 dbC5 tickDrawsC6 tickDrawsC5 rfl rfl rfl (by decide)⟩

/-- C6 counterexample: the claim says the per-tick positions-updated push
still happens on a tick whose flush failed; in the source the
`DronesUpdated` send (line 527) comes after the flush block (lines 509–525)
inside the same method, so the thrown store exception skips it.  On the
concrete failing flush tick the tick's outcome is the caught exception and
no event — in particular no `DronesUpdated` — is emitted. -/
theorem claim6_broadcast_on_failed_flush_counterexample :
    tickTelemetry realOps tickDrawsC6 tblC5 ≠ [] ∧
    (simulateAndBroadcast realOps rNoMember [] tblC5 dbC5 tickDrawsC6).2.2
      = Except.error () :=
  ⟨by decide, rfl⟩

/-! ## Claim C7 -/

/-- C7 (amended): a trajectory request is always answered to the calling
connection alone — with an empty point list when the agent id is unknown —
and an unknown-zone subscription touches no group and no other connection;
but it is silently dropped rather than answered: `SubscribeToZone` sends
nothing at all when the zone id is unknown (see the counterexample). -/
theorem claim7_unknown_request_amended {α : Type} [LinearOrderedField α]
    (telemetry : List (TelemetryRecord α)) (zones : List (Zone α))
    (groups : List (ℕ × ConnId)) (caller : ConnId) (droneId hours now zoneId : ℕ) :
    (∃ pts, getDroneTrajectory telemetry caller droneId hours now
        = [(caller, HubMsg.droneTrajectory droneId pts hours)]) ∧
    ((∀ t ∈ telemetry, t.droneId ≠ droneId) →
      getDroneTrajectory telemetry caller droneId hours now
        = [(caller, HubMsg.droneTrajectory droneId [] hours)]) ∧
    ((∀ z ∈ zones, z.id ≠ zoneId) →
      subscribeToZone zones groups caller zoneId = (groups, [])) ∧
    (∀ m ∈ (subscribeToZone zones groups caller zoneId).2, m.1 = caller) ∧
    (∀ m ∈ getDroneTrajectory telemetry caller droneId hours now, m.1 = caller) := by
  refine ⟨⟨_, rfl⟩, ?_, ?_, ?_, ?_⟩
  · intro hno
    unfold getDroneTrajectory
    have hfil : telemetry.filter (fun t =>
        decide (t.droneId = droneId) && decide (now - hours * 3600 ≤ t.timestamp)) = [] := by
      rw [List.filter_eq_nil_iff]
      intro t ht
      simp [hno t ht]
    dsimp only
    rw [hfil]
    simp [List.mergeSort]
  · intro hno
    unfold subscribeToZone
    have hfind : zones.find? (fun z => z.id = zoneId) = none := by
      rw [List.find?_eq_none]
      intro z hz
      simp [hno z hz]
    rw [hfind]
  · intro m hm
    unfold subscribeToZone at hm
    rcases h : zones.find? (fun z => z.id = zoneId) with _ | z <;> rw [h] at hm
    · cases hm
    · simp at hm
      rw [hm]
  · intro m hm
    unfold getDroneTrajectory at hm
    simp at hm
    rw [hm]

/-- Witness for C7: one seeded zone (id 1), empty telemetry; the unknown
zone id 99 and unknown agent id 42. -/
theorem claim7_unknown_request_amended_witness :
    (∀ z ∈ zonesC7, z.id ≠ 99) ∧
    subscribeToZone zonesC7 [] 0 99 = ([], []) ∧
    getDroneTrajectory ([] : List (TelemetryRecord ℚ)) 0 42 1 0
      = [(0, HubMsg.droneTrajectory 42 [] 1)] := by
  have h := claim7_unknown_request_amended
    ([] : List (TelemetryRecord ℚ)) zonesC7 [] 0 42 1 0 99
  exact ⟨by decide, h.2.2.1 (by decide), h.2.1 (by decide)⟩

/-- C7 counterexample: the claim says an on-demand request with an unknown
zone id is answered to the caller with an empty/not-found result;
`SubscribeToZone` (hub file, lines 30–43) has no else branch, so the unknown
zone id 99 produces no reply at all (and no group change): the caller
receives nothing, no "empty result" message exists. -/
theorem claim7_unanswered_subscribe_counterexample :
    (subscribeToZone zonesC7 [] 0 99).2 = ([] : List (ConnId × HubMsg ℚ)) ∧
    (subscribeToZone zonesC7 [] 0 99).1 = [] := by
  decide

/-! ## Claim C8 -/

/-- `filterMap` of a guarded `some` is `filter` then `map`. -/
theorem filterMap_ite_eq_map_filter {β γ : Type} (P : β → Prop) [DecidablePred P]
    (f : β → γ) (l : List β) :
    l.filterMap (fun b => if P b then some (f b) else none)
      = (l.filter fun b => decide (P b)).map f := by
  induction l with
  | nil => rfl
  | cons b l ih => by_cases h : P b <;> simp [h, ih]

/-- C8: the per-tick `ZoneActivity` payload contains exactly the zones whose
count of active drones inside is non-zero, each paired with that positive
count; a zone with no drones present is omitted entirely, never emitted with
count 0.  The membership test `member` stands for the NTS
`zone.Zone.Contains(dronePoint)` call. -/
theorem claim8_zone_activity_exactly_nonzero {α : Type} [LinearOrderedField α]
    (member : Zone α → α × α → Bool) (zones : List (Zone α))
    (states : List (ℕ × DroneState α)) :
    zoneActivityEntries member zones (activeDronePoints states)
      = (zones.filter fun z =>
          0 < (activeDronePoints states).countP (member z)).map
          (fun z => ⟨z.id, (activeDronePoints states).countP (member z)⟩) ∧
    (∀ ze : ZoneEntry,
      ze ∈ zoneActivityEntries member zones (activeDronePoints states) ↔
      ∃ z ∈ zones, z.id = ze.zoneId ∧
        ze.droneCount = (activeDronePoints states).countP (member z) ∧
        0 < ze.droneCount) := by
  have heq : zoneActivityEntries member zones (activeDronePoints states)
      = (zones.filter fun z =>
          0 < (activeDronePoints states).countP (member z)).map
          (fun z => ⟨z.id, (activeDronePoints states).countP (member z)⟩) := by
    unfold zoneActivityEntries
    by_cases hemp : (activeDronePoints states).isEmpty
    · rw [if_pos hemp]
      have : activeDronePoints states = [] := List.isEmpty_iff.mp hemp
      rw [this]
      simp
    · rw [if_neg hemp]
      exact filterMap_ite_eq_map_filter _ _ zones
  refine ⟨heq, ?_⟩
  intro ze
  rw [heq]
  constructor
  · intro hm
    simp only [List.mem_map, List.mem_filter] at hm
    obtain ⟨z, ⟨hz, hc⟩, hze⟩ := hm
    refine ⟨z, hz, ?_, ?_, ?_⟩
    · rw [← hze]
    · rw [← hze]
    · rw [← hze]
      simpa using hc
  · rintro ⟨z, hz, hid, hcnt, hpos⟩
    simp only [List.mem_map, List.mem_filter]
    refine ⟨z, ⟨hz, ?_⟩, ?_⟩
    · simp only [decide_eq_true_eq]
      rw [← hcnt]
      exact hpos
    · cases ze
      simp at hid hcnt
      simp [hid, hcnt]

/-- Witness for C8 at a concrete input (all-inside membership over the
six-drone ℚ table and one zone). -/
theorem claim8_zone_activity_exactly_nonzero_witness :
    zoneActivityEntries qAllMember zonesC7 (activeDronePoints tblC10)
      = (zonesC7.filter fun z =>
          0 < (activeDronePoints tblC10).countP (qAllMember z)).map
          (fun z => ⟨z.id, (activeDronePoints tblC10).countP (qAllMember z)⟩) :=
  (claim8_zone_activity_exactly_nonzero qAllMember zonesC7 tblC10).1

/-! ## Claim C9 -/

/-- `ActivateDrone` snaps a drone with a non-empty route to the route's
first waypoint. -/
theorem activateDrone_snaps {α : Type} [LinearOrderedField α] (s : DroneState α)
    (route : List (α × α)) (h : route ≠ []) :
    (activateDrone s route).latitude = (route.getD 0 (0, 0)).1 ∧
    (activateDrone s route).longitude = (route.getD 0 (0, 0)).2 ∧
    (activateDrone s route).currentWaypointIndex = 0 ∧
    (activateDrone s route).status = DroneStatus.Active := by
  rcases route with _ | ⟨p, rest⟩
  · exact absurd rfl h
  · simp [activateDrone]

/-- `walkRoute` always yields at least its starting point. -/
theorem walkRoute_ne_nil {α : Type} [LinearOrderedField α] (f : ℕ → α × α)
    (k n : ℕ) (cur : α × α) : walkRoute f k n cur ≠ [] := by
  cases n <;> simp [walkRoute]

/-- C9 (amended): for every one of the 6 pattern variants and every random
source, the route generator returns a non-empty waypoint list — so
activation can always snap the newly activated drone to the first
waypoint — and the rectangle, circle, figure-eight and zigzag variants
always contain at least 2 distinct points.  The scatter variant (case 1)
can degenerate to a single repeated point under degenerate draws (see the
counterexample), in addition to the random-walk variant the claim already
sets aside as the degenerate case. -/
theorem claim9_route_generator_amended (cLat cLon : ℝ) (t : ℕ) (d : RouteDraws ℝ)
    (ht : t < 6) (hs : 5 ≤ d.scatterN) (hz : 3 ≤ d.zigN) (hw : 8 ≤ d.walkN)
    (hrw : 0 ≤ d.rectW) (hrh : 0 ≤ d.rectH) (hcr : 0 ≤ d.circRadius)
    (her : 0 ≤ d.eightRadius) (hzw : 0 ≤ d.zigW) (hzh : 0 ≤ d.zigH) :
    generateRoute realOps cLat cLon t d ≠ [] ∧
    (∀ s : DroneState ℝ,
      (activateDrone s (generateRoute realOps cLat cLon t d)).latitude
        = ((generateRoute realOps cLat cLon t d).getD 0 (0, 0)).1 ∧
      (activateDrone s (generateRoute realOps cLat cLon t d)).longitude
        = ((generateRoute realOps cLat cLon t d).getD 0 (0, 0)).2 ∧
      (activateDrone s (generateRoute realOps cLat cLon t d)).status
        = DroneStatus.Active) ∧
    (t = 0 ∨ t = 2 ∨ t = 3 ∨ t = 4 →
      ∃ p ∈ generateRoute realOps cLat cLon t d,
      ∃ q ∈ generateRoute realOps cLat cLon t d, p ≠ q) := by
  have hne : generateRoute realOps cLat cLon t d ≠ [] := by
    interval_cases t
    · simp [generateRoute]
    · simp only [generateRoute]
      intro h
      have := congrArg List.length h
      simp at this
      omega
    · simp [generateRoute]
    · simp [generateRoute]
    · simp only [generateRoute]
      exact List.ne_nil_of_mem (List.mem_flatten.mpr
        ⟨_, List.mem_map_of_mem _ (List.mem_range.mpr (by omega : 0 < d.zigN + 1)),
         List.mem_cons_self _ _⟩)
    · exact walkRoute_ne_nil _ _ _ _
  refine ⟨hne, ?_, ?_⟩
  · intro s
    obtain ⟨h1, h2, _, h4⟩ := activateDrone_snaps s _ hne
    exact ⟨h1, h2, h4⟩
  · intro hcase
    have hpi : (0:ℝ) < Real.pi := Real.pi_pos
    rcases hcase with rfl | rfl | rfl | rfl
    · -- rectangle: the first two corners differ in latitude by the height
      simp only [generateRoute]
      refine ⟨_, List.mem_cons_self _ _, _,
        List.mem_cons_of_mem _ (List.mem_cons_self _ _), ?_⟩
      intro hpq
      have hfst := congrArg Prod.fst hpq
      dsimp only at hfst
      nlinarith [hrh]
    · -- circle: steps 3 and 9 sit at angles π/2 and 3π/2
      have hsin1 : Real.sin ((((3:ℕ) : ℝ)) * 360 / 12 * Real.pi / 180) = 1 := by
        have h : (((3:ℕ) : ℝ)) * 360 / 12 * Real.pi / 180 = Real.pi / 2 := by
          push_cast; ring
        rw [h, Real.sin_pi_div_two]
      have hsin2 : Real.sin ((((9:ℕ) : ℝ)) * 360 / 12 * Real.pi / 180) = -1 := by
        have h : (((9:ℕ) : ℝ)) * 360 / 12 * Real.pi / 180 = Real.pi / 2 + Real.pi := by
          push_cast; ring
        rw [h, Real.sin_add_pi, Real.sin_pi_div_two]
      simp only [generateRoute]
      by_cases hcw : d.circClockwise = true
      · refine ⟨_, List.mem_map_of_mem _ (List.mem_range.mpr (by norm_num : (3:ℕ) < 12)),
                _, List.mem_map_of_mem _ (List.mem_range.mpr (by norm_num : (9:ℕ) < 12)), ?_⟩
        intro hpq
        have hfst := congrArg Prod.fst hpq
        have he3 : (if d.circClockwise = true then (3:ℕ) else 12 - 1 - 3) = 3 :=
          if_pos hcw
        have he9 : (if d.circClockwise = true then (9:ℕ) else 12 - 1 - 9) = 9 :=
          if_pos hcw
        dsimp only at hfst
        rw [he3, he9] at hfst
        simp only [realOps] at hfst
        rw [hsin1, hsin2] at hfst
        nlinarith [hcr]
      · refine ⟨_, List.mem_map_of_mem _ (List.mem_range.mpr (by norm_num : (8:ℕ) < 12)),
                _, List.mem_map_of_mem _ (List.mem_range.mpr (by norm_num : (2:ℕ) < 12)), ?_⟩
        intro hpq
        have hfst := congrArg Prod.fst hpq
        have he8 : (if d.circClockwise = true then (8:ℕ) else 12 - 1 - 8) = 3 := by
          rw [if_neg hcw]
        have he2 : (if d.circClockwise = true then (2:ℕ) else 12 - 1 - 2) = 9 := by
          rw [if_neg hcw]
        dsimp only at hfst
        rw [he8, he2] at hfst
        simp only [realOps] at hfst
        rw [hsin1, hsin2] at hfst
        nlinarith [hcr]
    · -- figure-eight: first-lobe points at angles 0 and π differ in longitude
      have hcos0 : Real.cos ((((0:ℕ) : ℝ)) * 360 / 8 * Real.pi / 180) = 1 := by
        have h : (((0:ℕ) : ℝ)) * 360 / 8 * Real.pi / 180 = 0 := by push_cast; ring
        rw [h, Real.cos_zero]
      have hcospi : Real.cos ((((4:ℕ) : ℝ)) * 360 / 8 * Real.pi / 180) = -1 := by
        have h : (((4:ℕ) : ℝ)) * 360 / 8 * Real.pi / 180 = Real.pi := by push_cast; ring
        rw [h, Real.cos_pi]
      simp only [generateRoute]
      refine ⟨_, List.mem_append_left _
          (List.mem_map_of_mem _ (List.mem_range.mpr (by norm_num : (0:ℕ) < 9))),
        _, List.mem_append_left _
          (List.mem_map_of_mem _ (List.mem_range.mpr (by norm_num : (4:ℕ) < 9))), ?_⟩
      intro hpq
      have hsnd := congrArg Prod.snd hpq
      simp only [realOps] at hsnd
      rw [hcos0, hcospi] at hsnd
      nlinarith [her]
    · -- zigzag: the first sweep's two endpoints differ in longitude
      simp only [generateRoute]
      refine ⟨_, List.mem_flatten.mpr
          ⟨_, List.mem_map_of_mem _ (List.mem_range.mpr (by omega : 0 < d.zigN + 1)),
           List.mem_cons_self _ _⟩,
        _, List.mem_flatten.mpr
          ⟨_, List.mem_map_of_mem _ (List.mem_range.mpr (by omega : 0 < d.zigN + 1)),
           List.mem_cons_of_mem _ (List.mem_cons_self _ _)⟩, ?_⟩
      intro hpq
      have hsnd := congrArg Prod.snd hpq
      dsimp only at hsnd
      nlinarith [hzw]

/-- Witness for C9 at a concrete input: the rectangle variant with the
degenerate draws. -/
theorem claim9_route_generator_amended_witness :
    (0:ℕ) < 6 ∧ 5 ≤ rRouteDraws.scatterN ∧ 3 ≤ rRouteDraws.zigN ∧
    8 ≤ rRouteDraws.walkN ∧
    (generateRoute realOps 0 0 0 rRouteDraws ≠ [] ∧
     (∀ s : DroneState ℝ,
       (activateDrone s (generateRoute realOps 0 0 0 rRouteDraws)).latitude
         = ((generateRoute realOps 0 0 0 rRouteDraws).getD 0 (0, 0)).1 ∧
       (activateDrone s (generateRoute realOps 0 0 0 rRouteDraws)).longitude
         = ((generateRoute realOps 0 0 0 rRouteDraws).getD 0 (0, 0)).2 ∧
       (activateDrone s (generateRoute realOps 0 0 0 rRouteDraws)).status
         = DroneStatus.Active) ∧
     ((0:ℕ) = 0 ∨ (0:ℕ) = 2 ∨ (0:ℕ) = 3 ∨ (0:ℕ) = 4 →
       ∃ p ∈ generateRoute realOps 0 0 0 rRouteDraws,
       ∃ q ∈ generateRoute realOps 0 0 0 rRouteDraws, p ≠ q)) :=
  ⟨by decide, by decide, by decide, by decide,
    claim9_route_generator_amended 0 0 0 rRouteDraws (by decide) (by decide)
      (by decide) (by decide) (by norm_num [rRouteDraws]) (by norm_num [rRouteDraws])
      (by norm_num [rRouteDraws]) (by norm_num [rRouteDraws])
      (by norm_num [rRouteDraws]) (by norm_num [rRouteDraws])⟩

/-- C9 counterexample: for the scatter variant (case 1, not the random-walk
variant the spec designates as the degenerate case) a degenerate random
source — every angle and distance draw equal — produces 5 coincident
waypoints: no two distinct points exist, refuting "at least 2 distinct
points for all but the degenerate case" as a guarantee over every random
source. -/
theorem claim9_scatter_degenerate_counterexample :
    generateRoute realOps 0 0 1 rRouteDraws
      = [((0:ℝ), 1 / 100), (0, 1 / 100), (0, 1 / 100), (0, 1 / 100), (0, 1 / 100)] ∧
    ¬(∃ p ∈ generateRoute realOps 0 0 1 rRouteDraws,
      ∃ q ∈ generateRoute realOps 0 0 1 rRouteDraws, p ≠ q) := by
  have h1 : generateRoute realOps 0 0 1 rRouteDraws
      = [((0:ℝ), 1 / 100), (0, 1 / 100), (0, 1 / 100), (0, 1 / 100), (0, 1 / 100)] := by
    simp only [generateRoute, rRouteDraws, realOps]
    norm_num [List.range_succ, Real.sin_zero, Real.cos_zero]
  refine ⟨h1, ?_⟩
  rintro ⟨p, hp, q, hq, hne⟩
  rw [h1] at hp hq
  simp at hp hq
  exact hne (hp.trans hq.symm)

/-! ## Claim C4 -/

/-- C4 (amended): in the final revision's per-tick motion step of an active
agent with a route of at least two waypoints and an in-range index, when the
remaining distance to the current target is below the arrival epsilon the
waypoint index advances to `(index + 1) % len` (a genuinely different
index); when it is at or above the epsilon the index is unchanged and the
step shortens the distance to the current target by exactly the drawn move
speed; consequently, after every step, either the distance to the current
target has decreased or the index has advanced.  The claim's further
assertion that the movement vector is recomputed against the new target
within the same step holds only for the earlier part_007 revision — the
final revision still moves along the stale vector (see the
counterexample). -/
theorem claim4_motion_step_amended (s : DroneState ℝ) (c : ℕ) (d : MoveDraws ℝ)
    (hroute : 2 ≤ s.route.length) (hidx : s.currentWaypointIndex < s.route.length)
    (hj0 : 0 ≤ d.speedJitter) (hj1 : d.speedJitter < 1) :
    (distanceToTarget s < 5 / 10000 →
      (simulateDroneMovement realOps c d s).currentWaypointIndex
        = (s.currentWaypointIndex + 1) % s.route.length ∧
      (simulateDroneMovement realOps c d s).currentWaypointIndex
        ≠ s.currentWaypointIndex) ∧
    (5 / 10000 ≤ distanceToTarget s →
      (simulateDroneMovement realOps c d s).currentWaypointIndex
        = s.currentWaypointIndex ∧
      distanceToTarget (simulateDroneMovement realOps c d s)
        = distanceToTarget s - (1 / 10000 + d.speedJitter * (5 / 100000)) ∧
      distanceToTarget (simulateDroneMovement realOps c d s) < distanceToTarget s) ∧
    (distanceToTarget (simulateDroneMovement realOps c d s) < distanceToTarget s ∨
      (simulateDroneMovement realOps c d s).currentWaypointIndex
        ≠ s.currentWaypointIndex) := by
  obtain ⟨p0, rest, hr⟩ : ∃ p0 rest, s.route = p0 :: rest := by
    rcases hrr : s.route with _ | ⟨p0, rest⟩
    · rw [hrr] at hroute; cases hroute
    · exact ⟨p0, rest, rfl⟩
  set T := s.route.getD s.currentWaypointIndex (0, 0) with hT
  set dLat := T.1 - s.latitude with hdLat
  set dLon := T.2 - s.longitude with hdLon
  set S := dLat * dLat + dLon * dLon with hS
  have hSnn : 0 ≤ S := by nlinarith [sq_nonneg dLat, sq_nonneg dLon]
  have hdist : distanceToTarget s = Real.sqrt S := rfl
  set ms := 1 / 10000 + d.speedJitter * (5 / 100000) with hms
  have hms0 : 0 < ms := by rw [hms]; nlinarith
  have hms1 : ms < 15 / 100000 := by rw [hms]; nlinarith
  have hstep : simulateDroneMovement realOps c d s
      = { s with
          latitude := if 0 < Real.sqrt S then s.latitude + dLat / Real.sqrt S * ms
            else s.latitude,
          longitude := if 0 < Real.sqrt S then s.longitude + dLon / Real.sqrt S * ms
            else s.longitude,
          heading := if 0 < Real.sqrt S then
              rfmod (ratan2 dLon dLat * 180 / Real.pi + 360) 360
            else s.heading,
          altitude := max 50 (min 500 (s.altitude + d.altJitter * 10 - 5)),
          speed := max 8 (min 25 (s.speed + d.velJitter * 3 - 3 / 2)),
          currentWaypointIndex := if Real.sqrt S < 5 / 10000 then
              (s.currentWaypointIndex + 1) % s.route.length
            else s.currentWaypointIndex,
          status := if MIN_ACTIVE_DRONES < c ∧ d.deactivate then
              DroneStatus.Inactive
            else s.status } := by
    conv_lhs => rw [simulateDroneMovement, hr]
    dsimp only
    rw [← hr]
    rfl
  by_cases harr : Real.sqrt S < 5 / 10000
  · -- arrival: the index advances and genuinely changes
    have hadv : (simulateDroneMovement realOps c d s).currentWaypointIndex
        = (s.currentWaypointIndex + 1) % s.route.length := by
      rw [hstep]; simp [harr]
    have hneq : (s.currentWaypointIndex + 1) % s.route.length
        ≠ s.currentWaypointIndex := by
      rcases Nat.lt_or_ge (s.currentWaypointIndex + 1) s.route.length with h | h
      · rw [Nat.mod_eq_of_lt h]; omega
      · have hlen : s.currentWaypointIndex + 1 = s.route.length := by omega
        rw [hlen, Nat.mod_self]; omega
    refine ⟨fun _ => ⟨hadv, by rw [hadv]; exact hneq⟩, ?_, Or.inr (by rw [hadv]; exact hneq)⟩
    intro hge
    rw [hdist] at hge
    exact absurd harr (by simpa using hge)
  · -- no arrival: the step shortens the distance by exactly the move speed
    have hge : 5 / 10000 ≤ Real.sqrt S := not_lt.mp harr
    have hpos : 0 < Real.sqrt S := lt_of_lt_of_le (by norm_num) hge
    have hidx2 : (simulateDroneMovement realOps c d s).currentWaypointIndex
        = s.currentWaypointIndex := by
      rw [hstep]; simp [harr]
    have hroute2 : (simulateDroneMovement realOps c d s).route = s.route := by
      rw [hstep]
    have hlat : (simulateDroneMovement realOps c d s).latitude
        = s.latitude + dLat / Real.sqrt S * ms := by
      rw [hstep]; simp [hpos]
    have hlon : (simulateDroneMovement realOps c d s).longitude
        = s.longitude + dLon / Real.sqrt S * ms := by
      rw [hstep]; simp [hpos]
    set k := 1 - ms / Real.sqrt S with hk
    have hkpos : 0 < k := by
      rw [hk]
      have hlt1 : ms / Real.sqrt S < 1 := by
        rw [div_lt_one hpos]
        calc ms < 15 / 100000 := hms1
        _ ≤ 5 / 10000 := by norm_num
        _ ≤ Real.sqrt S := hge
      linarith
    have e1 : T.1 - (s.latitude + dLat / Real.sqrt S * ms) = dLat * k := by
      rw [hk, hdLat]; ring
    have e2 : T.2 - (s.longitude + dLon / Real.sqrt S * ms) = dLon * k := by
      rw [hk, hdLon]; ring
    have hkey : distanceToTarget (simulateDroneMovement realOps c d s)
        = Real.sqrt (k ^ 2 * S) := by
      unfold distanceToTarget
      rw [hroute2, hidx2, hlat, hlon, ← hT]
      dsimp only
      rw [e1, e2]
      congr 1
      rw [hS]; ring
    have hsqrtk : Real.sqrt (k ^ 2 * S) = k * Real.sqrt S := by
      rw [Real.sqrt_mul (sq_nonneg k), Real.sqrt_sq hkpos.le]
    have hksub : k * Real.sqrt S = Real.sqrt S - ms := by
      rw [hk, sub_mul, one_mul, div_mul_cancel₀ _ (ne_of_gt hpos)]
    have hdec : distanceToTarget (simulateDroneMovement realOps c d s)
        = distanceToTarget s - ms := by
      rw [hkey, hsqrtk, hksub, hdist]
    refine ⟨?_, fun _ => ⟨hidx2, by rw [hdec, hms], by rw [hdec]; linarith⟩,
      Or.inl (by rw [hdec]; linarith)⟩
    intro hlt
    rw [hdist] at hlt
    exact absurd hlt harr

/-- Witness for C4 at a concrete input: an agent one degree away from its
first waypoint (outside the arrival epsilon). -/
theorem claim4_motion_step_amended_witness :
    2 ≤ sC4far.route.length ∧ sC4far.currentWaypointIndex < sC4far.route.length ∧
    (0:ℝ) ≤ dC4.speedJitter ∧ dC4.speedJitter < 1 ∧
    ((distanceToTarget sC4far < 5 / 10000 →
       (simulateDroneMovement realOps 0 dC4 sC4far).currentWaypointIndex
         = (sC4far.currentWaypointIndex + 1) % sC4far.route.length ∧
       (simulateDroneMovement realOps 0 dC4 sC4far).currentWaypointIndex
         ≠ sC4far.currentWaypointIndex) ∧
     (5 / 10000 ≤ distanceToTarget sC4far →
       (simulateDroneMovement realOps 0 dC4 sC4far).currentWaypointIndex
         = sC4far.currentWaypointIndex ∧
       distanceToTarget (simulateDroneMovement realOps 0 dC4 sC4far)
         = distanceToTarget sC4far - (1 / 10000 + dC4.speedJitter * (5 / 100000)) ∧
       distanceToTarget (simulateDroneMovement realOps 0 dC4 sC4far)
         < distanceToTarget sC4far) ∧
     (distanceToTarget (simulateDroneMovement realOps 0 dC4 sC4far)
         < distanceToTarget sC4far ∨
       (simulateDroneMovement realOps 0 dC4 sC4far).currentWaypointIndex
         ≠ sC4far.currentWaypointIndex)) :=
  ⟨by decide, by decide, by norm_num [dC4], by norm_num [dC4],
    claim4_motion_step_amended sC4far 0 dC4 (by decide) (by decide)
      (by norm_num [dC4]) (by norm_num [dC4])⟩

/-- C4 counterexample: the claim says that on arrival the movement vector of
that same step is recomputed against the new target.  In the final revision
it is not: with the agent 0.0004° south of waypoint 0 and waypoint 1 to the
north-east, the step advances the index to 1 but still moves the agent SOUTH
along the stale vector toward the old waypoint (latitude 0.0004 → 0.0003),
while the earlier part_007 revision — which does recompute — moves it north
(latitude > 0.0004).  The two embedded revisions disagree at this input. -/
theorem claim4_stale_vector_counterexample :
    distanceToTarget sC4 < 5 / 10000 ∧
    (simulateDroneMovement realOps 0 dC4 sC4).currentWaypointIndex = 1 ∧
    (simulateDroneMovement realOps 0 dC4 sC4).latitude = 3 / 10000 ∧
    (simulateDroneMovementP7 realOps dC4 sC4).latitude = 5 / 10000 ∧
    (simulateDroneMovement realOps 0 dC4 sC4).latitude
      ≠ (simulateDroneMovementP7 realOps dC4 sC4).latitude := by
  have hs0 : Real.sqrt
      (((0:ℝ) - 4 / 10000) * ((0:ℝ) - 4 / 10000) + ((0:ℝ) - 0) * ((0:ℝ) - 0))
      = 4 / 10000 := by
    rw [show (((0:ℝ) - 4 / 10000) * ((0:ℝ) - 4 / 10000) + ((0:ℝ) - 0) * ((0:ℝ) - 0))
        = (4 / 10000) ^ 2 from by ring]
    exact Real.sqrt_sq (by norm_num)
  have hdist : distanceToTarget sC4 = 4 / 10000 := by
    unfold distanceToTarget sC4
    dsimp only
    simp only [List.getD_cons_zero]
    exact hs0
  have hlt : distanceToTarget sC4 < 5 / 10000 := by rw [hdist]; norm_num
  have hmv : (simulateDroneMovement realOps 0 dC4 sC4).currentWaypointIndex = 1 ∧
      (simulateDroneMovement realOps 0 dC4 sC4).latitude = 3 / 10000 := by
    unfold simulateDroneMovement sC4 dC4
    dsimp only
    simp only [List.getD_cons_zero, realOps, hs0]
    norm_num
  have hs1 : Real.sqrt
      (((1:ℝ) - 4 / 10000) * ((1:ℝ) - 4 / 10000) + ((0:ℝ) - 0) * ((0:ℝ) - 0))
      = 1 - 4 / 10000 := by
    rw [show (((1:ℝ) - 4 / 10000) * ((1:ℝ) - 4 / 10000) + ((0:ℝ) - 0) * ((0:ℝ) - 0))
        = (1 - 4 / 10000) ^ 2 from by ring]
    exact Real.sqrt_sq (by norm_num)
  have hp7 : (simulateDroneMovementP7 realOps dC4 sC4).latitude = 5 / 10000 := by
    unfold simulateDroneMovementP7 sC4 dC4
    dsimp only
    simp only [realOps, List.getD_cons_zero, hs0]
    rw [if_pos (by norm_num : (4:ℝ) / 10000 < 5 / 10000)]
    have h1 : Real.sqrt 6245001 = 2499 := by
      rw [show (6245001:ℝ) = 2499 ^ 2 from by norm_num]
      exact Real.sqrt_sq (by norm_num)
    have h2 : Real.sqrt 6250000 = 2500 := by
      rw [show (6250000:ℝ) = 2500 ^ 2 from by norm_num]
      exact Real.sqrt_sq (by norm_num)
    norm_num [List.getD_cons_succ, List.getD_cons_zero, hs1, h1, h2]
  refine ⟨hlt, hmv.1, hmv.2, hp7, ?_⟩
  rw [hmv.2, hp7]
  norm_num

/-! ## Claim C3 -/

/-- For every angle `y`, `1 - cos y ≤ y² / 2`. -/
theorem one_sub_cos_le_half_sq (y : ℝ) : 1 - Real.cos y ≤ y ^ 2 / 2 := by
  have h1 : Real.cos y = 2 * Real.cos (y / 2) ^ 2 - 1 := by
    have h := Real.cos_two_mul (y / 2)
    rw [show 2 * (y / 2) = y from by ring] at h
    exact h
  have h2 := Real.sin_sq_add_cos_sq (y / 2)
  have h3 : Real.sin (y / 2) ^ 2 ≤ (y / 2) ^ 2 := Real.sin_sq_le_sq
  nlinarith

/-- For latitudes strictly between −90° and 90°, the per-degree longitude
scale used by `CreateGeodesicCirclePolygon` is positive. -/
theorem mlon_pos_of_lat {clat : ℝ} (h1 : -90 < clat) (h2 : clat < 90) :
    0 < metersPerDegreeLon clat := by
  have hπ := Real.pi_pos
  have hc : 0 < Real.cos (clat * Real.pi / 180) := by
    apply Real.cos_pos_of_mem_Ioo
    rw [Set.mem_Ioo]
    constructor
    · have hp : (0:ℝ) < (clat + 90) * Real.pi := mul_pos (by linarith) hπ
      nlinarith
    · have hp : (0:ℝ) < (90 - clat) * Real.pi := mul_pos (by linarith) hπ
      nlinarith
  unfold metersPerDegreeLon metersPerDegreeLat
  nlinarith

theorem circleVertex_zero (clon clat r : ℝ) :
    circleVertex clon clat r 0 = (clon + r / metersPerDegreeLon clat, clat) := by
  unfold circleVertex
  dsimp only
  norm_num

theorem circleVertex_sixteen (clon clat r : ℝ) :
    circleVertex clon clat r 16 = (clon, clat + r / metersPerDegreeLat) := by
  unfold circleVertex
  dsimp only
  have ha : 2 * Real.pi * ((16:ℕ) : ℝ) / 64 = Real.pi / 2 := by push_cast; ring
  rw [ha, Real.cos_pi_div_two, Real.sin_pi_div_two]
  norm_num

theorem circleVertex_thirtytwo (clon clat r : ℝ) :
    circleVertex clon clat r 32 = (clon - r / metersPerDegreeLon clat, clat) := by
  unfold circleVertex
  dsimp only
  have ha : 2 * Real.pi * ((32:ℕ) : ℝ) / 64 = Real.pi := by push_cast; ring
  rw [ha, Real.cos_pi, Real.sin_pi, Prod.mk.injEq]
  constructor <;> ring

theorem circleVertex_fortyeight (clon clat r : ℝ) :
    circleVertex clon clat r 48 = (clon, clat - r / metersPerDegreeLat) := by
  unfold circleVertex
  dsimp only
  have ha : 2 * Real.pi * ((48:ℕ) : ℝ) / 64 = Real.pi / 2 + Real.pi := by push_cast; ring
  rw [ha, Real.cos_add, Real.sin_add, Real.cos_pi, Real.sin_pi,
    Real.cos_pi_div_two, Real.sin_pi_div_two, Prod.mk.injEq]
  constructor <;> ring

/-- Every vertex of the seeded ring is at flat-scaled distance exactly `r`
from the center. -/
theorem scaledDistSq_circleVertex (clon clat r : ℝ)
    (hm : metersPerDegreeLon clat ≠ 0) (i : ℕ) :
    scaledDistSq clon clat (circleVertex clon clat r i) = r ^ 2 := by
  have hM : (metersPerDegreeLat : ℝ) ≠ 0 := by unfold metersPerDegreeLat; norm_num
  unfold scaledDistSq circleVertex
  dsimp only
  have e1 : (clon + r * Real.cos (2 * Real.pi * (i:ℝ) / 64) / metersPerDegreeLon clat - clon)
      * metersPerDegreeLon clat = r * Real.cos (2 * Real.pi * (i:ℝ) / 64) := by
    field_simp
    ring
  have e2 : (clat + r * Real.sin (2 * Real.pi * (i:ℝ) / 64) / metersPerDegreeLat - clat)
      * metersPerDegreeLat = r * Real.sin (2 * Real.pi * (i:ℝ) / 64) := by
    field_simp
    ring
  rw [e1, e2]
  have hpyth := Real.sin_sq_add_cos_sq (2 * Real.pi * (i:ℝ) / 64)
  nlinarith [hpyth]

/-- The polygon's region lies inside the flat-scaled disc of radius `r`. -/
theorem convexHull_subset_scaledBall (clon clat r : ℝ)
    (hm : metersPerDegreeLon clat ≠ 0) :
    convexHull ℝ (circleVertices clon clat r)
      ⊆ {q : ℝ × ℝ | scaledDistSq clon clat q ≤ r ^ 2} := by
  apply convexHull_min
  · rintro p ⟨i, -, rfl⟩
    exact le_of_eq (scaledDistSq_circleVertex clon clat r hm i)
  · rintro x hx y hy a b ha hb hab
    simp only [Set.mem_setOf_eq, scaledDistSq] at hx hy ⊢
    have h1 : (a • x + b • y).1 = a * x.1 + b * y.1 := rfl
    have h2 : (a • x + b • y).2 = a * x.2 + b * y.2 := rfl
    rw [h1, h2]
    have e1 : (a * x.1 + b * y.1 - clon) * metersPerDegreeLon clat
        = a * ((x.1 - clon) * metersPerDegreeLon clat)
          + b * ((y.1 - clon) * metersPerDegreeLon clat) := by
      have : a * x.1 + b * y.1 - clon = a * (x.1 - clon) + b * (y.1 - clon) := by
        linear_combination clon * hab
      rw [this]; ring
    have e2 : (a * x.2 + b * y.2 - clat) * metersPerDegreeLat
        = a * ((x.2 - clat) * metersPerDegreeLat)
          + b * ((y.2 - clat) * metersPerDegreeLat) := by
      have : a * x.2 + b * y.2 - clat = a * (x.2 - clat) + b * (y.2 - clat) := by
        linear_combination clat * hab
      rw [this]; ring
    rw [e1, e2]
    have hb' : b = 1 - a := by linarith
    subst hb'
    nlinarith [mul_nonneg ha (sub_nonneg.mpr hx), mul_nonneg hb (sub_nonneg.mpr hy),
      mul_nonneg (mul_nonneg ha hb)
        (sq_nonneg ((x.1 - clon) * metersPerDegreeLon clat - (y.1 - clon) * metersPerDegreeLon clat)),
      mul_nonneg (mul_nonneg ha hb)
        (sq_nonneg ((x.2 - clat) * metersPerDegreeLat - (y.2 - clat) * metersPerDegreeLat))]

/-- A point strictly beyond the flat-scaled radius is not contained in the
zone polygon. -/
theorem zonePolygon_not_contains_of_far (clon clat r : ℝ)
    (hm : metersPerDegreeLon clat ≠ 0) {p : ℝ × ℝ}
    (hfar : r ^ 2 < scaledDistSq clon clat p) :
    ¬ zonePolygonContains clon clat r p := by
  intro hp
  have hb := convexHull_subset_scaledBall clon clat r hm (interior_subset hp)
  simp only [Set.mem_setOf_eq] at hb
  linarith

/-- A convex combination of four members of a convex set is a member. -/
theorem convex_combo4 {s : Set (ℝ × ℝ)} (hs : Convex ℝ s) {v0 v1 v2 v3 : ℝ × ℝ}
    (h0 : v0 ∈ s) (h1 : v1 ∈ s) (h2 : v2 ∈ s) (h3 : v3 ∈ s)
    {a0 a1 a2 a3 : ℝ} (ha0 : 0 < a0) (ha1 : 0 < a1) (ha2 : 0 < a2) (ha3 : 0 < a3)
    (hsum : a0 + a1 + a2 + a3 = 1) :
    a0 • v0 + a1 • v1 + a2 • v2 + a3 • v3 ∈ s := by
  have hc : 0 < a0 + a1 := by linarith
  have hd : 0 < a2 + a3 := by linarith
  have hx : (a0 / (a0 + a1)) • v0 + (a1 / (a0 + a1)) • v1 ∈ s := by
    apply hs h0 h1 (div_nonneg ha0.le hc.le) (div_nonneg ha1.le hc.le)
    rw [div_add_div_same, div_self hc.ne']
  have hy : (a2 / (a2 + a3)) • v2 + (a3 / (a2 + a3)) • v3 ∈ s := by
    apply hs h2 h3 (div_nonneg ha2.le hd.le) (div_nonneg ha3.le hd.le)
    rw [div_add_div_same, div_self hd.ne']
  have hmem := hs hx hy hc.le hd.le (by linarith)
  have e0 : (a0 + a1) * (a0 / (a0 + a1)) = a0 := by field_simp
  have e1 : (a0 + a1) * (a1 / (a0 + a1)) = a1 := by field_simp
  have e2 : (a2 + a3) * (a2 / (a2 + a3)) = a2 := by field_simp
  have e3 : (a2 + a3) * (a3 / (a2 + a3)) = a3 := by field_simp
  rw [smul_add, smul_add, smul_smul, smul_smul, smul_smul, smul_smul,
    e0, e1, e2, e3, ← add_assoc] at hmem
  exact hmem

/-- The center of a zone is contained in the seeded polygon. -/
theorem center_mem_zonePolygon (clon clat r : ℝ) (hr : 0 < r)
    (hm : 0 < metersPerDegreeLon clat) :
    zonePolygonContains clon clat r (clon, clat) := by
  have hM : (0:ℝ) < metersPerDegreeLat := by unfold metersPerDegreeLat; norm_num
  have hhull : {q : ℝ × ℝ |
      |(q.1 - clon) * metersPerDegreeLon clat| + |(q.2 - clat) * metersPerDegreeLat| < r}
      ⊆ convexHull ℝ (circleVertices clon clat r) := by
    intro q hq
    simp only [Set.mem_setOf_eq] at hq
    obtain ⟨u, hu⟩ : ∃ u, (q.1 - clon) * metersPerDegreeLon clat = u * r :=
      ⟨(q.1 - clon) * metersPerDegreeLon clat / r, (div_mul_cancel₀ _ hr.ne').symm⟩
    obtain ⟨w, hw⟩ : ∃ w, (q.2 - clat) * metersPerDegreeLat = w * r :=
      ⟨(q.2 - clat) * metersPerDegreeLat / r, (div_mul_cancel₀ _ hr.ne').symm⟩
    have hs : |u| + |w| < 1 := by
      rw [hu, hw, abs_mul, abs_mul, abs_of_pos hr] at hq
      have h2 : (|u| + |w|) * r < 1 * r := by rw [add_mul, one_mul]; exact hq
      exact lt_of_mul_lt_mul_right h2 hr.le
    have hcvx : Convex ℝ (convexHull ℝ (circleVertices clon clat r)) :=
      convex_convexHull ℝ _
    have h0mem : circleVertex clon clat r 0 ∈ convexHull ℝ (circleVertices clon clat r) :=
      subset_convexHull ℝ _ ⟨0, by norm_num, rfl⟩
    have h16mem : circleVertex clon clat r 16 ∈ convexHull ℝ (circleVertices clon clat r) :=
      subset_convexHull ℝ _ ⟨16, by norm_num, rfl⟩
    have h32mem : circleVertex clon clat r 32 ∈ convexHull ℝ (circleVertices clon clat r) :=
      subset_convexHull ℝ _ ⟨32, by norm_num, rfl⟩
    have h48mem : circleVertex clon clat r 48 ∈ convexHull ℝ (circleVertices clon clat r) :=
      subset_convexHull ℝ _ ⟨48, by norm_num, rfl⟩
    have hau := le_abs_self u
    have hau' := neg_abs_le u
    have haw := le_abs_self w
    have haw' := neg_abs_le w
    -- strictly positive weights for the four cardinal vertices
    have ha0 : 0 < (|u| + u) / 2 + (1 - (|u| + |w|)) / 4 := by linarith
    have ha32 : 0 < (|u| - u) / 2 + (1 - (|u| + |w|)) / 4 := by linarith
    have ha16 : 0 < (|w| + w) / 2 + (1 - (|u| + |w|)) / 4 := by linarith
    have ha48 : 0 < (|w| - w) / 2 + (1 - (|u| + |w|)) / 4 := by linarith
    -- the combination equals q
    have hq1 : q.1 = clon + u * (r / metersPerDegreeLon clat) := by
      field_simp
      linarith [hu]
    have hq2 : q.2 = clat + w * (r / metersPerDegreeLat) := by
      field_simp
      linarith [hw]
    have hkey : ((|u| + u) / 2 + (1 - (|u| + |w|)) / 4) • circleVertex clon clat r 0
        + ((|u| - u) / 2 + (1 - (|u| + |w|)) / 4) • circleVertex clon clat r 32
        + ((|w| + w) / 2 + (1 - (|u| + |w|)) / 4) • circleVertex clon clat r 16
        + ((|w| - w) / 2 + (1 - (|u| + |w|)) / 4) • circleVertex clon clat r 48
        = q := by
      rw [circleVertex_zero, circleVertex_sixteen, circleVertex_thirtytwo,
        circleVertex_fortyeight, Prod.ext_iff]
      constructor
      · simp only [Prod.smul_mk, Prod.mk_add_mk, smul_eq_mul]
        rw [hq1]; ring
      · simp only [Prod.smul_mk, Prod.mk_add_mk, smul_eq_mul]
        rw [hq2]; ring
    rw [← hkey]
    exact convex_combo4 hcvx h0mem h32mem h16mem h48mem ha0 ha32 ha16 ha48 (by ring)
  have hopen : IsOpen {q : ℝ × ℝ |
      |(q.1 - clon) * metersPerDegreeLon clat| + |(q.2 - clat) * metersPerDegreeLat| < r} := by
    have hcont : Continuous fun q : ℝ × ℝ =>
        |(q.1 - clon) * metersPerDegreeLon clat| + |(q.2 - clat) * metersPerDegreeLat| :=
      (((continuous_fst.sub continuous_const).mul continuous_const).abs).add
        (((continuous_snd.sub continuous_const).mul continuous_const).abs)
    exact isOpen_lt hcont continuous_const
  have hcenter : ((clon, clat) : ℝ × ℝ) ∈ {q : ℝ × ℝ |
      |(q.1 - clon) * metersPerDegreeLon clat| + |(q.2 - clat) * metersPerDegreeLat| < r} := by
    simp only [Set.mem_setOf_eq, sub_self, zero_mul, abs_zero, add_zero]
    exact hr
  exact interior_maximal hhull hopen hcenter

/-- The seeded central zone's latitude is below 60°, so the cosine in its
longitude scale exceeds 1/2. -/
theorem cos_clat_gt_half : 1 / 2 < Real.cos (539022 / 10000 * Real.pi / 180) := by
  have hπ := Real.pi_pos
  have h1 : (539022 / 10000 : ℝ) * Real.pi / 180 < Real.pi / 3 := by linarith
  have h2 : (0:ℝ) ≤ 539022 / 10000 * Real.pi / 180 := by positivity
  have h3 : Real.pi / 3 ≤ Real.pi := by linarith
  have h := Real.cos_lt_cos_of_nonneg_of_le_pi h2 h3 h1
  rw [Real.cos_pi_div_three] at h
  exact h

/-- The flat-scaled distance from the central zone's center to `pC3` is
exactly 2501.25 m. -/
theorem scaledDistSq_pC3 :
    scaledDistSq (275618 / 10000) (539022 / 10000) pC3 = (250125 / 100) ^ 2 := by
  have hm : (0:ℝ) < metersPerDegreeLon (539022 / 10000) :=
    mlon_pos_of_lat (by norm_num) (by norm_num)
  unfold scaledDistSq pC3
  dsimp only
  rw [show (275618 / 10000 + 250125 / 100 / metersPerDegreeLon (539022 / 10000)
      - 275618 / 10000 : ℝ) = 250125 / 100 / metersPerDegreeLon (539022 / 10000) from by ring,
    div_mul_cancel₀ _ hm.ne']
  norm_num

set_option maxHeartbeats 1000000 in
/-- The great-circle distance from the central zone's center to `pC3` is at
most 2500 m, although `pC3` lies outside the seeded polygon. -/
theorem gcDist_pC3_le :
    greatCircleDist (275618 / 10000) (539022 / 10000) pC3.1 pC3.2 ≤ 2500 := by
  have hπ := Real.pi_pos
  have hcos : 1 / 2 < Real.cos (539022 / 10000 * Real.pi / 180) := cos_clat_gt_half
  have hcosne : Real.cos (539022 / 10000 * Real.pi / 180) ≠ 0 := by linarith
  -- the longitude offset, in radians, is A / cos φ
  have hp1 : pC3.1 = 275618 / 10000
      + 250125 / 100 / (111320 * Real.cos (539022 / 10000 * Real.pi / 180)) := by
    unfold pC3 metersPerDegreeLon metersPerDegreeLat
    rfl
  have hθ : (pC3.1 - 275618 / 10000) * Real.pi / 180
      = (250125 / 100 * Real.pi / 180 / 111320) / Real.cos (539022 / 10000 * Real.pi / 180) := by
    rw [hp1]
    revert hcosne
    generalize Real.cos (539022 / 10000 * Real.pi / 180) = c
    intro hcne
    field_simp
    ring
  have hgc : greatCircleDist (275618 / 10000) (539022 / 10000) pC3.1 pC3.2
      = 6371000 * Real.arccos
          (Real.sin (539022 / 10000 * Real.pi / 180) * Real.sin (539022 / 10000 * Real.pi / 180)
          + Real.cos (539022 / 10000 * Real.pi / 180) * Real.cos (539022 / 10000 * Real.pi / 180)
            * Real.cos ((250125 / 100 * Real.pi / 180 / 111320)
                / Real.cos (539022 / 10000 * Real.pi / 180))) := by
    unfold greatCircleDist
    dsimp only
    rw [show pC3.2 = (539022 / 10000 : ℝ) from rfl, hθ]
  rw [hgc]
  -- abbreviations
  have hA0 : (0:ℝ) < 250125 / 100 * Real.pi / 180 / 111320 := by positivity
  have hAub : (250125 / 100 : ℝ) * Real.pi / 180 / 111320
      ≤ 785790949125 / 2003760000000000 := by
    have hd6 := Real.pi_lt_d6
    linarith
  -- lower bound on the arccos argument
  have h1c := one_sub_cos_le_half_sq ((250125 / 100 * Real.pi / 180 / 111320)
    / Real.cos (539022 / 10000 * Real.pi / 180))
  have hpyth := Real.sin_sq_add_cos_sq (539022 / 10000 * Real.pi / 180)
  have hsq : Real.cos (539022 / 10000 * Real.pi / 180) * Real.cos (539022 / 10000 * Real.pi / 180)
      * (((250125 / 100 * Real.pi / 180 / 111320)
          / Real.cos (539022 / 10000 * Real.pi / 180)) ^ 2)
      = (250125 / 100 * Real.pi / 180 / 111320) ^ 2 := by
    revert hcosne
    generalize Real.cos (539022 / 10000 * Real.pi / 180) = c
    intro hcne
    rw [div_pow]
    rw [show c * c * ((250125 / 100 * Real.pi / 180 / 111320) ^ 2 / c ^ 2)
        = (250125 / 100 * Real.pi / 180 / 111320) ^ 2 * (c * c / c ^ 2) from by ring]
    rw [show c * c / c ^ 2 = c ^ 2 / c ^ 2 from by ring, div_self (pow_ne_zero 2 hcne)]
    ring
  have h2 : Real.cos (539022 / 10000 * Real.pi / 180) * Real.cos (539022 / 10000 * Real.pi / 180)
      * (1 - Real.cos ((250125 / 100 * Real.pi / 180 / 111320)
          / Real.cos (539022 / 10000 * Real.pi / 180)))
      ≤ Real.cos (539022 / 10000 * Real.pi / 180) * Real.cos (539022 / 10000 * Real.pi / 180)
      * (((250125 / 100 * Real.pi / 180 / 111320)
          / Real.cos (539022 / 10000 * Real.pi / 180)) ^ 2 / 2) := by
    have hnn : (0:ℝ) ≤ Real.cos (539022 / 10000 * Real.pi / 180)
        * Real.cos (539022 / 10000 * Real.pi / 180) := mul_self_nonneg _
    have := mul_le_mul_of_nonneg_left h1c hnn
    calc Real.cos (539022 / 10000 * Real.pi / 180) * Real.cos (539022 / 10000 * Real.pi / 180)
        * (1 - Real.cos ((250125 / 100 * Real.pi / 180 / 111320)
            / Real.cos (539022 / 10000 * Real.pi / 180))) ≤ _ := this
      _ = _ := by ring
  have hyge : 1 - (250125 / 100 * Real.pi / 180 / 111320) ^ 2 / 2
      ≤ Real.sin (539022 / 10000 * Real.pi / 180) * Real.sin (539022 / 10000 * Real.pi / 180)
        + Real.cos (539022 / 10000 * Real.pi / 180) * Real.cos (539022 / 10000 * Real.pi / 180)
          * Real.cos ((250125 / 100 * Real.pi / 180 / 111320)
              / Real.cos (539022 / 10000 * Real.pi / 180)) := by
    nlinarith [hpyth, hsq, h2]
  -- upper bound at t = 2500 / 6371000
  have habs : |(2500 / 6371000 : ℝ)| = 2500 / 6371000 := abs_of_pos (by norm_num)
  have hcb := Real.cos_bound (show |(2500 / 6371000 : ℝ)| ≤ 1 by rw [habs]; norm_num)
  have htb : Real.cos (2500 / 6371000)
      ≤ 1 - (2500 / 6371000 : ℝ) ^ 2 / 2 + (2500 / 6371000 : ℝ) ^ 4 * (5 / 96) := by
    have := (abs_le.mp hcb).2
    rw [habs] at this
    linarith
  have hA2 : (250125 / 100 * Real.pi / 180 / 111320 : ℝ) ^ 2
      ≤ (785790949125 / 2003760000000000 : ℝ) ^ 2 :=
    pow_le_pow_left₀ hA0.le hAub 2
  have hnum : (1:ℝ) - (2500 / 6371000 : ℝ) ^ 2 / 2 + (2500 / 6371000 : ℝ) ^ 4 * (5 / 96)
      ≤ 1 - (785790949125 / 2003760000000000 : ℝ) ^ 2 / 2 := by norm_num
  have hcosty : Real.cos (2500 / 6371000)
      ≤ Real.sin (539022 / 10000 * Real.pi / 180) * Real.sin (539022 / 10000 * Real.pi / 180)
        + Real.cos (539022 / 10000 * Real.pi / 180) * Real.cos (539022 / 10000 * Real.pi / 180)
          * Real.cos ((250125 / 100 * Real.pi / 180 / 111320)
              / Real.cos (539022 / 10000 * Real.pi / 180)) := by
    linarith
  -- arccos bounds
  have hyle : Real.sin (539022 / 10000 * Real.pi / 180) * Real.sin (539022 / 10000 * Real.pi / 180)
      + Real.cos (539022 / 10000 * Real.pi / 180) * Real.cos (539022 / 10000 * Real.pi / 180)
        * Real.cos ((250125 / 100 * Real.pi / 180 / 111320)
            / Real.cos (539022 / 10000 * Real.pi / 180)) ≤ 1 := by
    have hcz := Real.cos_le_one ((250125 / 100 * Real.pi / 180 / 111320)
      / Real.cos (539022 / 10000 * Real.pi / 180))
    nlinarith [hpyth, mul_self_nonneg (Real.cos (539022 / 10000 * Real.pi / 180))]
  have hyge1 : (-1:ℝ)
      ≤ Real.sin (539022 / 10000 * Real.pi / 180) * Real.sin (539022 / 10000 * Real.pi / 180)
      + Real.cos (539022 / 10000 * Real.pi / 180) * Real.cos (539022 / 10000 * Real.pi / 180)
        * Real.cos ((250125 / 100 * Real.pi / 180 / 111320)
            / Real.cos (539022 / 10000 * Real.pi / 180)) := by
    have hub : (785790949125 / 2003760000000000 : ℝ) ^ 2 ≤ 1 := by norm_num
    linarith
  have ht0 : (0:ℝ) < 2500 / 6371000 := by norm_num
  have htπ : (2500 / 6371000 : ℝ) ≤ Real.pi := by
    have := Real.pi_gt_three
    linarith
  have harc : Real.arccos (Real.cos (2500 / 6371000)) = 2500 / 6371000 :=
    Real.arccos_cos ht0.le htπ
  have harcy : Real.arccos
      (Real.sin (539022 / 10000 * Real.pi / 180) * Real.sin (539022 / 10000 * Real.pi / 180)
      + Real.cos (539022 / 10000 * Real.pi / 180) * Real.cos (539022 / 10000 * Real.pi / 180)
        * Real.cos ((250125 / 100 * Real.pi / 180 / 111320)
            / Real.cos (539022 / 10000 * Real.pi / 180))) ≤ 2500 / 6371000 := by
    rcases eq_or_lt_of_le hcosty with heq | hlt
    · rw [← heq, harc]
    · have hmem1 : Real.cos (2500 / 6371000) ∈ Set.Icc (-1 : ℝ) 1 :=
        ⟨Real.neg_one_le_cos _, Real.cos_le_one _⟩
      have hmem2 : Real.sin (539022 / 10000 * Real.pi / 180)
            * Real.sin (539022 / 10000 * Real.pi / 180)
          + Real.cos (539022 / 10000 * Real.pi / 180)
            * Real.cos (539022 / 10000 * Real.pi / 180)
            * Real.cos ((250125 / 100 * Real.pi / 180 / 111320)
                / Real.cos (539022 / 10000 * Real.pi / 180)) ∈ Set.Icc (-1 : ℝ) 1 :=
        ⟨hyge1, hyle⟩
      have hlt2 := Real.strictAntiOn_arccos hmem1 hmem2 hlt
      rw [harc] at hlt2
      exact hlt2.le
  calc 6371000 * Real.arccos
        (Real.sin (539022 / 10000 * Real.pi / 180) * Real.sin (539022 / 10000 * Real.pi / 180)
        + Real.cos (539022 / 10000 * Real.pi / 180) * Real.cos (539022 / 10000 * Real.pi / 180)
          * Real.cos ((250125 / 100 * Real.pi / 180 / 111320)
              / Real.cos (539022 / 10000 * Real.pi / 180)))
      ≤ 6371000 * (2500 / 6371000) := by
        apply mul_le_mul_of_nonneg_left harcy
        norm_num
    _ = 2500 := by norm_num

/-- C3 (amended): the membership test actually used is NTS polygon
containment of the seeded 64-gon, not a great-circle comparison.  For every
zone with positive radius and latitude strictly between −90° and 90°: the
zone's center is reported inside, and every point whose flat-scaled distance
(the polygon's own metric) exceeds the radius is reported outside. -/
theorem claim3_geofence_amended (clon clat r : ℝ) (hr : 0 < r)
    (hlat1 : -90 < clat) (hlat2 : clat < 90) :
    zonePolygonContains clon clat r (clon, clat) ∧
    ∀ p : ℝ × ℝ, r ^ 2 < scaledDistSq clon clat p →
      ¬ zonePolygonContains clon clat r p := by
  have hm := mlon_pos_of_lat hlat1 hlat2
  exact ⟨center_mem_zonePolygon clon clat r hr hm,
    fun p hp => zonePolygon_not_contains_of_far clon clat r hm.ne' hp⟩

/-- Witness for `claim3_geofence_amended` at the seeded central zone
(center latitude 53.9022°, radius 2500 m). -/
theorem claim3_geofence_amended_witness :
    ((0:ℝ) < 2500 ∧ (-90:ℝ) < 539022 / 10000 ∧ (539022 / 10000 : ℝ) < 90) ∧
    (zonePolygonContains (275618 / 10000) (539022 / 10000) 2500
        (275618 / 10000, 539022 / 10000) ∧
      ∀ p : ℝ × ℝ, (2500:ℝ) ^ 2 < scaledDistSq (275618 / 10000) (539022 / 10000) p →
        ¬ zonePolygonContains (275618 / 10000) (539022 / 10000) 2500 p) :=
  ⟨⟨by norm_num, by norm_num, by norm_num⟩,
    claim3_geofence_amended (275618 / 10000) (539022 / 10000) 2500
      (by norm_num) (by norm_num) (by norm_num)⟩

/-- C3 counterexample: for the seeded central zone, polygon containment
is not equivalent to great-circle distance ≤ radius: the point `pC3`, due
east at flat-scaled distance 2501.25 m, is outside the polygon although its
great-circle distance to the center is at most 2500 m. -/
theorem claim3_great_circle_counterexample :
    ¬ (zonePolygonContains (275618 / 10000) (539022 / 10000) 2500 pC3 ↔
       greatCircleDist (275618 / 10000) (539022 / 10000) pC3.1 pC3.2 ≤ 2500) := by
  intro hiff
  have hm : (0:ℝ) < metersPerDegreeLon (539022 / 10000) :=
    mlon_pos_of_lat (by norm_num) (by norm_num)
  have hfar : (2500:ℝ) ^ 2 < scaledDistSq (275618 / 10000) (539022 / 10000) pC3 := by
    rw [scaledDistSq_pC3]
    norm_num
  exact zonePolygon_not_contains_of_far (275618 / 10000) (539022 / 10000) 2500
    hm.ne' hfar (hiff.mpr gcDist_pC3_le)

end DroneMonitoring
